import Mathlib

set_option maxRecDepth 100000

/-!
Verification development for the digest email rendering engine of the
news-agent REST API (`api/routers/digest.py`, `api/security.py`).

The renderer `generate_digest_html` is embedded shallowly: every template
literal is carried over verbatim (long ones are split into chunks joined by
`++` so that concrete evaluation stays within the kernel's stack budget),
dynamic values are explicit parameters, and Python's `dict.get`/truthiness
idioms are modelled by `Option` plus empty-string tests.
-/

/-! ## Generic character-list scanning utilities -/

/-- Boolean prefix test on character lists. -/
def isPrefB : List Char → List Char → Bool
  | [], _ => true
  | _ :: _, [] => false
  | a :: as, b :: bs => a == b && isPrefB as bs

/-- Number of (possibly overlapping) occurrences of `pat` in a character list. -/
def countPat (pat : List Char) : List Char → Nat
  | [] => 0
  | c :: rest => (if isPrefB pat (c :: rest) then 1 else 0) + countPat pat rest

/-- `true` iff some nonempty proper prefix of `pat` is a suffix of the list
(so appending further text on the right could create a new occurrence). -/
def tailRiskB (pat : List Char) : List Char → Bool
  | [] => false
  | c :: rest =>
    (isPrefB (c :: rest) pat && decide ((c :: rest).length < pat.length)) || tailRiskB pat rest

/-- A block is scan-safe for `pat`: no occurrence inside it and no dangling
prefix of `pat` at its right edge. -/
def scanOkB (pat cs : List Char) : Bool := (countPat pat cs == 0) && !(tailRiskB pat cs)

/-- No `<` character in the list. -/
def ltFreeB (cs : List Char) : Bool := cs.all (fun c => !(c == '<'))

/-- No `<`, `>` or `"` character in the list. -/
def cleanB (cs : List Char) : Bool := cs.all (fun c => !(c == '<') && !(c == '>') && !(c == '"'))

/-- Longest prefix not containing `<`. -/
def untilLt : List Char → List Char
  | [] => []
  | c :: rest => if c = '<' then [] else c :: untilLt rest

/-- All stretches of text that directly follow an occurrence of the marker
`pat`, each cut off at the next `<`.  Used to read "the title shown in the
`<h2>` element", "the chip texts", etc. off a rendered document. -/
def extractAfter (pat : List Char) : List Char → List (List Char)
  | [] => []
  | c :: rest =>
    if isPrefB pat (c :: rest) then
      untilLt (rest.drop (pat.length - 1)) :: extractAfter pat (rest.drop (pat.length - 1))
    else
      extractAfter pat rest
termination_by cs => cs.length
decreasing_by
  all_goals simp [List.length_drop]
  all_goals omega

/-- Concatenation of a list of strings (the renderer's `html += ...` loop /
`"".join`). -/
def concatS : List String → String
  | [] => ""
  | s :: rest => s ++ concatS rest

/-! ## `html.escape` (Python stdlib, quote=True) -/

/-- Replacement for one character under `html.escape`. -/
def escChar (c : Char) : List Char :=
  if c = '&' then "&amp;".data
  else if c = '<' then "&lt;".data
  else if c = '>' then "&gt;".data
  else if c = '"' then "&quot;".data
  else if c = '\'' then "&#x27;".data
  else [c]

/-- `html.escape` on character lists. -/
def escapeL : List Char → List Char
  | [] => []
  | c :: rest => escChar c ++ escapeL rest

/-- `html.escape` on strings. -/
def htmlEscape (s : String) : String := ⟨escapeL s.data⟩

/-! ## Decimal rendering of the interpolated numbers -/

/-- The decimal digit characters. -/
def digitCh (d : Nat) : Char := "0123456789".data.getD d '0'

/-- Decimal digits of a natural number (structural fuel recursion on the
first argument; `n + 1` units of fuel always suffice since `n / 10 < n`). -/
def natStrLAux : Nat → Nat → List Char
  | 0, _ => []
  | fuel + 1, n =>
    if n < 10 then [digitCh n] else natStrLAux fuel (n / 10) ++ [digitCh (n % 10)]

/-- Decimal digits of a natural number. -/
def natStrL (n : Nat) : List Char := natStrLAux (n + 1) n

/-- `str(n)` for a natural number. -/
def natStr (n : Nat) : String := ⟨natStrL n⟩

/-- `str(i)` for an integer. -/
def intStr (i : Int) : String := if i < 0 then ⟨'-' :: natStrL i.natAbs⟩ else ⟨natStrL i.natAbs⟩
def headerA1 : String := "\n<!DOCTYPE html>\n<html>\n<head>\n  <meta charset=\"utf-8\">\n  <meta name=\"viewport\" content=\"width=device-width, initial-scale=1.0\">\n  <style>\n    body \x7b font-family: Arial, Helvetica, sans-serif; line-height: 1.6; color: #66667e; max-width: 800px; margin: 0 auto; padding: 20px; background-color: #f3f3f0; \x7d\n    .header \x7b margin-bottom: 30px; padding-top: 30px; padding-bottom: 30px; border-bottom: 2px solid #009999; \x7d\n    .logo \x7b max-width: 200px; height: auto; margin-top: 20px; margin-bottom: 25px; \x7d\n    h1 \x7b color: #000028; font-weight: 700; margin: 0; padding-top: 10px; font-size: 1.5em; \x7d\n    .subtitle \x7b color: #9999a9; font-size: 0.9em; margin-top: 5px; \x7d\n"
def headerA2 : String := "    .article \x7b margin-bottom: 30px; padding: 20px; background: #ebebee; border-left: 4px solid #009999; \x7d\n    .article.high-priority \x7b border-left-color: #e74c3c; \x7d\n    .article.medium-priority \x7b border-left-color: #f39c12; \x7d\n    .article h2 \x7b margin-top: 0; color: #000028; font-weight: 700; font-size: 1.1em; \x7d\n    .article-meta \x7b color: #9999a9; font-size: 0.85em; margin-bottom: 10px; \x7d\n    .summary \x7b margin: 15px 0; color: #66667e; \x7d\n    .keywords \x7b margin-top: 10px; \x7d\n    .keyword \x7b display: inline-block; background: #ccccd4; color: #000028; padding: 2px 8px; border-radius: 3px; font-size: 0.75em; margin-right: 5px; margin-bottom: 5px; \x7d\n"
def headerA3 : String := "    .read-more \x7b display: inline-block; margin-top: 10px; color: #009999; text-decoration: none; font-weight: 600; \x7d\n    .read-more:hover \x7b color: #00c1b6; \x7d\n    .footer \x7b margin-top: 40px; padding-top: 20px; border-top: 1px solid #ccccd4; color: #9999a9; font-size: 0.85em; text-align: center; \x7d\n    .stats \x7b background: #000028; color: white; padding: 15px 20px; border-radius: 5px; margin-bottom: 25px; \x7d\n    .stats-item \x7b display: inline-block; margin-right: 20px; \x7d\n    .stats-number \x7b font-size: 1.5em; font-weight: 700; color: #009999; \x7d\n    .no-articles \x7b text-align: center; padding: 40px; color: #9999a9; \x7d\n  </style>\n</head>\n<body>\n  <div class=\"header\">\n    <img src=\""
def headerA : String := headerA1 ++ headerA2 ++ headerA3
def logoPart1 : String := "data:image/svg+xml;base64,PD94bWwgdmVyc2lvbj0iMS4wIiBlbmNvZGluZz0iaXNvLTg4NTktMSI/Pg0KPCEtLSBHZW5lcmF0b3I6IEFkb2JlIElsbHVzdHJhdG9yIDE2LjAuNCwgU1ZHIEV4cG9ydCBQbHVnLUluIC4gU1ZHIFZlcnNpb246IDYuMDAgQnVpbGQgMCkgIC0tPg0KPCFET0NUWVBFIHN2ZyBQVUJMSUMgIi0vL1czQy8vRFREIFNWRyAxLjEvL0VOIiAiaHR0cDovL3d3dy53My5vcmcvR3JhcGhpY3MvU1ZHLzEuMS9EVEQvc3ZnMTEuZHRkIj4NCjxzdmcgdmVyc2lvbj0iMS4xIiB4bWxucz0iaHR0cDovL3d3dy53My5vcmcvMjAwMC9zdmciIHhtbG5zOnhsaW5rPSJodHRwOi8vd3d3LnczLm9yZy8xOTk5L3hsaW5rIiB4PSIwcHgiIHk9IjBweCIgd2lkdGg9IjEwMDBweCINCgkgaGVpZ2h0PSIxNTlweCIgdmlld0JveD0iMCAwIDEwMDAgMTU5IiBzdHlsZT0iZW5hYmxlLWJhY2tncm91bmQ6bmV3IDAgMCAxMDAwIDE1OTsiIHhtbDpzcGFjZT0icHJlc2VydmUiPg0KPGcgaWQ9IkJvdW5kaW5nQm94Ij4NCgk8cG9seW"
def logoPart2 : String := "dvbiBzdHlsZT0iZmlsbDpub25lOyIgcG9pbnRzPSIwLDE1OSAxMDAwLDE1OSAxMDAwLDAgMCwwIDAsMCAJIi8+DQo8L2c+DQo8ZyBpZD0iU0lFTUVOUyI+DQoJPGc+DQoJCTxwYXRoIHN0eWxlPSJmaWxsLXJ1bGU6ZXZlbm9kZDtjbGlwLXJ1bGU6ZXZlbm9kZDtmaWxsOiMwMDk5OTk7IiBkPSJNMy4wODYsMTUyLjUzN1YxMjIuNDYNCgkJCWMxNy4xMTksNS4zODgsMzIuMjY3LDguMDgyLDQ1LjQ0NCw4LjA4MmMxOC4xOTMsMCwyNy4yOTEtNC44MDksMjcuMjkxLTE0LjQyYzAtMy41ODMtMS4zMjQtNi41OTQtMy45NzgtOS4wMzINCgkJCWMtMi43MTQtMi41ODYtOS42NjUtNi4xNzEtMjAuODM1LTEwLjc2NGMtMjAuMDQyLTguMjQxLTMzLjExMS0xNS4yNjktMzkuMTktMjEuMDgyQzMuOTM5LDY3LjU3MSwwLDU3Ljg5NSwwLDQ2LjIwMg0KCQkJQzAsMzEuMTQ0LDUuNzQsMTkuNjY3LDE3LjIxMiwxMS43OEMyOC41NTcsMy45NjIsNDMuMzMsMC4wNTcsNjEuNTU0LDAuMDU3YzEwLjA0MSwwLDI0LjU3NCwxLjg0OCw0My41ODMsNS41ND"
def logoPart3 : String := "l2MjguOTMzDQoJCQljLTE0LjE0NC01LjY1LTI3LjI3My04LjQ2OS0zOS40MDMtOC40NjljLTE3LjA4MSwwLTI1LjYyMSw0LjY5LTI1LjYyMSwxNC4wOTFjMCwzLjUxNCwxLjcyLDYuMzgsNS4xNjUsOC42MDINCgkJCWMyLjg2NSwxLjc5OCwxMC43NTksNS41OTYsMjMuNjY1LDExLjQwNmMxOC41ODMsOC4yNTMsMzAuOTU0LDE1LjQyNywzNy4xMTgsMjEuNTI5YzcuMzE0LDcuMjM4LDEwLjk3OCwxNi42MDQsMTAuOTc4LDI4LjA4NA0KCQkJYzAsMTYuNTAxLTcuMTc3LDI5LjA4OC0yMS41MjEsMzcuNzYxYy0xMS42MjEsNy4wMzMtMjYuNjksMTAuNTM1LTQ1LjE5OCwxMC41MzVDMzQuNjksMTU4LjA3OCwxOC45NDIsMTU2LjIzNywzLjA4NiwxNTIuNTM3DQoJCQlMMy4wODYsMTUyLjUzN3oiLz4NCgkJPHBvbHlnb24gc3R5bGU9ImZpbGwtcnVsZTpldmVub2RkO2NsaXAtcnVsZTpldmVub2RkO2ZpbGw6IzAwOTk5OTsiIHBvaW50cz0iMTQxLjA2MywyLjcwNCAxNDEuMDYzLDIuNzA0IDE4My42MDMsMi43MDQgDQoJCQkxODMuNjAzLD"
def logoPart4 : String := "E1NS4wMDEgMTQxLjA2MywxNTUuMDAxIAkJIi8+DQoJCTxwb2x5Z29uIHN0eWxlPSJmaWxsLXJ1bGU6ZXZlbm9kZDtjbGlwLXJ1bGU6ZXZlbm9kZDtmaWxsOiMwMDk5OTk7IiBwb2ludHM9IjIyMi42MTYsMTU1LjAwMSAyMjIuNjE2LDIuNzA0IDMzMS43MjEsMi43MDQgDQoJCQkzMzEuNzIxLDMwLjI1IDI2My42MTYsMzAuMjUgMjYzLjYxNiw2NC42MzkgMzIyLjg5OCw2NC42MzkgMzIyLjg5OCw4OS43NjUgMjYzLjYxNiw4OS43NjUgMjYzLjYxNiwxMjUuOTA2IDMzMy40NzYsMTI1LjkwNiANCgkJCTMzMy40NzYsMTU1LjAwMSAyMjIuNjE2LDE1NS4wMDEgCQkiLz4NCgkJPHBvbHlnb24gc3R5bGU9ImZpbGwtcnVsZTpldmVub2RkO2NsaXAtcnVsZTpldmVub2RkO2ZpbGw6IzAwOTk5OTsiIHBvaW50cz0iMzYxLjI0NywxNTUuMDAxIDM2MS4yNDcsMi43MDQgNDE2LjQwMiwyLjcwNCANCgkJCTQ1NC43MjEsMTAwLjAxNSA0OTQuMDAxLDIuNzA0IDU0Ni4zOSwyLjcwNCA1NDYuMzksMTU1LjAwMSA1MDYuMDU2LDE1NS4wMDEgNTA2Lj"
def logoPart5 : String := "A1Niw0Ny4xNzEgNDYxLjM5MiwxNTYuNTQ3IDQzNS4wMjMsMTU2LjU0NyANCgkJCTM5MS4yMTksNDcuMTcxIDM5MS4yMTksMTU1LjAwMSAzNjEuMjQ3LDE1NS4wMDEgCQkiLz4NCgkJPHBvbHlnb24gc3R5bGU9ImZpbGwtcnVsZTpldmVub2RkO2NsaXAtcnVsZTpldmVub2RkO2ZpbGw6IzAwOTk5OTsiIHBvaW50cz0iNTg1LjQxMSwxNTUuMDAxIDU4NS40MTEsMi43MDQgNjk0LjUxNCwyLjcwNCANCgkJCTY5NC41MTQsMzAuMjUgNjI2LjQxNSwzMC4yNSA2MjYuNDE1LDY0LjYzOSA2ODUuNjk1LDY0LjYzOSA2ODUuNjk1LDg5Ljc2NSA2MjYuNDE1LDg5Ljc2NSA2MjYuNDE1LDEyNS45MDYgNjk2LjI4LDEyNS45MDYgDQoJCQk2OTYuMjgsMTU1LjAwMSA1ODUuNDExLDE1NS4wMDEgCQkiLz4NCgkJPHBvbHlnb24gc3R5bGU9ImZpbGwtcnVsZTpldmVub2RkO2NsaXAtcnVsZTpldmVub2RkO2ZpbGw6IzAwOTk5OTsiIHBvaW50cz0iNzI0LjI3MSwxNTUuMDAxIDcyNC4yNzEsMi43MDQgNzczLjU3NSwyLjcwNCANCgkJCTgyNS44ODMsMT"
def logoPart6 : String := "A0LjY1NSA4MjUuODgzLDIuNzA0IDg1NS44NDcsMi43MDQgODU1Ljg0NywxNTUuMDAxIDgwNy45NDMsMTU1LjAwMSA3NTQuMjQ3LDUxLjY3OCA3NTQuMjQ3LDE1NS4wMDEgNzI0LjI3MSwxNTUuMDAxIAkJDQoJCQkiLz4NCgkJPHBhdGggc3R5bGU9ImZpbGwtcnVsZTpldmVub2RkO2NsaXAtcnVsZTpldmVub2RkO2ZpbGw6IzAwOTk5OTsiIGQ9Ik04ODYuMDQ3LDE1Mi41MzdWMTIyLjQ2DQoJCQljMTYuOTc0LDUuMzg4LDMyLjEyLDguMDgyLDQ1LjQ1Miw4LjA4MmMxOC4xOTUsMCwyNy4yODItNC44MDksMjcuMjgyLTE0LjQyYzAtMy41ODMtMS4yODktNi41OTQtMy44NTQtOS4wMzINCgkJCWMtMi43MjgtMi41ODYtOS43MDgtNi4xNzEtMjAuOTQ1LTEwLjc2NGMtMTkuOTgyLTguMTczLTMzLjA2NC0xNS4xOTgtMzkuMTk5LTIxLjA4MmMtNy44NzUtNy42MDUtMTEuODA3LTE3LjMxNy0xMS44MDctMjkuMTQ2DQoJCQljMC0xNC45OTMsNS43MjYtMjYuNDMyLDE3LjIxLTM0LjMxOWMxMS4zMjgtNy44MTgsMjYuMTE4LTExLjcyMyw0NC"
def logoPart7 : String := "4zNDQtMTEuNzIzYzEwLjI0NywwLDIzLjUyNSwxLjYyNywzOS44MSw0Ljg5NmwzLjc2MSwwLjY1Mw0KCQkJdjI4LjkzM2MtMTQuMTQ2LTUuNjUtMjcuMzEzLTguNDY5LTM5LjUwOC04LjQ2OWMtMTcuMDE2LDAtMjUuNTAzLDQuNjktMjUuNTAzLDE0LjA5MWMwLDMuNTE0LDEuNzExLDYuMzgsNS4xNDcsOC42MDINCgkJCWMyLjczLDEuNzI5LDEwLjY1Niw1LjUyOSwyMy43NzgsMTEuNDA2YzE4LjQ0Miw4LjI1MywzMC43ODcsMTUuNDI3LDM3LjAwNSwyMS41MjljNy4zMjUsNy4yMzgsMTAuOTgsMTYuNjA0LDEwLjk4LDI4LjA4NA0KCQkJYzAsMTYuNTAxLTcuMTM1LDI5LjA4OC0yMS40MDYsMzcuNzYxYy0xMS42ODksNy4wMzMtMjYuNzk2LDEwLjUzNS00NS4zMDEsMTAuNTM1DQoJCQlDOTE3LjY0NiwxNTguMDc4LDkwMS44OTEsMTU2LjIzNyw4ODYuMDQ3LDE1Mi41MzdMODg2LjA0NywxNTIuNTM3eiIvPg0KCTwvZz4NCjwvZz4NCjwvc3ZnPg0K"
def logo_base64 : String := logoPart1 ++ logoPart2 ++ logoPart3 ++ logoPart4 ++ logoPart5 ++ logoPart6 ++ logoPart7
def headerB : String := "\" alt=\"Siemens\" class=\"logo\">\n    <h1>Dein News Digest - "
def headerC : String := "</h1>\n    <div class=\"subtitle\">KI-kuratierte Auswahl der wichtigsten Nachrichten</div>\n  </div>\n"
def noArticlesHtml : String := "\n  <div class=\"no-articles\">\n    <p>Keine Artikel zum Anzeigen.</p>\n    <p>Es gibt aktuell keine ungesendeten Artikel mit Zusammenfassungen.</p>\n  </div>\n"
def statsA : String := "\n  <div class=\"stats\">\n    <span class=\"stats-item\"><span class=\"stats-number\">"
def statsB : String := "</span> Artikel ausgewählt</span>\n    <span class=\"stats-item\">aus <span class=\"stats-number\">"
def statsC : String := "</span> Kandidaten</span>\n  </div>\n  \n  <p>Hier sind deine "
def statsD : String := " wichtigsten Nachrichten von heute, intelligent kuratiert für maximale Relevanz und Vielfalt:</p>\n"
def cardA : String := "\n  <div class=\"article "
def cardB : String := "\">\n    "
def cardC : String := "</h2>\n    <div class=\"article-meta\">\n      "
def cardD : String := "\n    </div>\n    <div class=\"summary\">\n      "
def cardE : String := "\n    </div>\n    "
def cardF : String := "\n    <a href=\""
def cardG : String := "\" class=\"read-more\" target=\"_blank\">Weiterlesen →</a>\n  </div>\n"
def badgeHigh : String := "<span style=\"background: #e74c3c; color: white; padding: 2px 8px; border-radius: 3px; font-size: 0.75em; margin-left: 10px;\">HIGH</span>"
def badgeMedium : String := "<span style=\"background: #f39c12; color: white; padding: 2px 8px; border-radius: 3px; font-size: 0.75em; margin-left: 10px;\">MEDIUM</span>"
def footerPre : String := "\n  <div class=\"footer\">\n    <p>Dieser Digest wurde automatisch von deinem News AI Agent generiert.</p>\n    <p style=\"font-size: 0.8em;\">Powered by KI-gestützte Kuration | "
def footerPost : String := "</p>\n  </div>\n</body>\n</html>\n"

/-! ## `datetime.fromisoformat` (stdlib collaborator, common-subset grammar)

The renderer calls `datetime.fromisoformat` on the raw string after
`replace('Z', '+00:00')`.  We model the grammar common to the CPython
versions in use: `YYYY-MM-DD` optionally followed by `'T'`/`' '` and
`HH:MM[:SS[.f{1,6}]][(+|-)HH:MM[:SS]]`, with full range validation.
Only the date triple is returned since only `%d.%m.%Y` is rendered. -/

/-- Gregorian leap-year test. -/
def isLeap (y : Nat) : Bool := (y % 4 == 0 && y % 100 != 0) || (y % 400 == 0)

/-- Number of days in a month. -/
def daysInMonth (y m : Nat) : Nat :=
  if m = 2 then (if isLeap y then 29 else 28)
  else if m = 4 || m = 6 || m = 9 || m = 11 then 30
  else 31

/-- Numeric value of a digit character. -/
def digitVal (c : Char) : Nat := c.toNat - 48

/-- Parse exactly `k` decimal digits (accumulating left to right), returning
their value and the rest. -/
def parseDigitsAux : Nat → Nat → List Char → Option (Nat × List Char)
  | 0, acc, rest => some (acc, rest)
  | _ + 1, _, [] => none
  | k + 1, acc, c :: rest =>
    if c.isDigit then parseDigitsAux k (acc * 10 + digitVal c) rest else none

/-- Parse exactly `k` decimal digits, returning their value and the rest. -/
def parseDigits (k : Nat) (cs : List Char) : Option (Nat × List Char) :=
  parseDigitsAux k 0 cs

/-- Fractional seconds: one to six digits, consumed. -/
def parseFrac (cs : List Char) : Option (List Char) :=
  let ds := cs.takeWhile (fun c => c.isDigit)
  if 1 ≤ ds.length ∧ ds.length ≤ 6 then some (cs.drop ds.length) else none

/-- UTC-offset part: empty, or `±HH:MM[:SS]` within `timedelta` bounds. -/
def parseTZ : List Char → Bool
  | [] => true
  | sign :: rest =>
    if sign = '+' || sign = '-' then
      match parseDigits 2 rest with
      | some (hh, ':' :: r2) =>
        (match parseDigits 2 r2 with
         | some (mm, r3) =>
           decide (hh < 24) && decide (mm < 60) &&
             (match r3 with
              | [] => true
              | ':' :: r4 =>
                (match parseDigits 2 r4 with
                 | some (ss, r5) => decide (ss < 60) && r5.isEmpty
                 | none => false)
              | _ => false)
         | none => false)
      | _ => false
    else false

/-- Time-of-day part: `HH:MM[:SS[.frac]]` plus optional offset. -/
def parseTime (cs : List Char) : Bool :=
  match parseDigits 2 cs with
  | some (hh, ':' :: r1) =>
    (match parseDigits 2 r1 with
     | some (mm, r2) =>
       decide (hh < 24) && decide (mm < 60) &&
         (match r2 with
          | ':' :: r3 =>
            (match parseDigits 2 r3 with
             | some (ss, r4) =>
               decide (ss < 60) &&
                 (match r4 with
                  | '.' :: r5 => (match parseFrac r5 with
                                  | some r6 => parseTZ r6
                                  | none => false)
                  | r6 => parseTZ r6)
             | none => false)
          | r3 => parseTZ r3)
     | none => false)
  | _ => false

/-- `datetime.fromisoformat`, restricted to the date triple. -/
def fromisoformat (cs : List Char) : Option (Nat × Nat × Nat) :=
  match parseDigits 4 cs with
  | some (y, '-' :: r1) =>
    (match parseDigits 2 r1 with
     | some (m, '-' :: r2) =>
       (match parseDigits 2 r2 with
        | some (d, r3) =>
          if 1 ≤ y ∧ 1 ≤ m ∧ m ≤ 12 ∧ 1 ≤ d ∧ d ≤ daysInMonth y m then
            match r3 with
            | [] => some (y, m, d)
            | sep :: tcs =>
              if (sep = 'T' || sep = ' ') && parseTime tcs then some (y, m, d) else none
          else none
        | none => none)
     | _ => none)
  | _ => none

/-- `s.replace('Z', '+00:00')` (replaces every occurrence, like `str.replace`). -/
def replaceZ : List Char → List Char
  | [] => []
  | c :: rest => (if c = 'Z' then "+00:00".data else [c]) ++ replaceZ rest

/-- Two-digit zero-padded decimal (`%d` / `%m`). -/
def pad2 (n : Nat) : String := if n < 10 then "0" ++ natStr n else natStr n

/-- Four-digit zero-padded decimal (`%Y`). -/
def pad4 (n : Nat) : String :=
  if n < 10 then "000" ++ natStr n
  else if n < 100 then "00" ++ natStr n
  else if n < 1000 then "0" ++ natStr n
  else natStr n

/-- `strftime("%d.%m.%Y")` of a date. -/
def fmtDMY (d m y : Nat) : String := pad2 d ++ "." ++ pad2 m ++ "." ++ pad4 y

/-- Python slice `s[:10]` (identity on shorter strings). -/
def take10 (s : String) : String := ⟨s.data.take 10⟩

/-! ## The article record

An article reaches the renderer as a free-form dict; the renderer reads the
fields below via `article.get(...)`.  `published_at` may be a `datetime`
(anything exposing `strftime`), a string, some other object (kept as its
`str()` rendering), absent/falsy, or a pathological object whose formatting
raises (the renderer's bare `except` keeps the pre-initialised fallback). -/

inductive PubDate
  /-- Key absent, `None`, or any falsy value (`""`, `0`, ...). -/
  | absent
  /-- A `datetime`-like value; `strftime("%d.%m.%Y")` renders day/month/year. -/
  | dt (day month year : Nat)
  /-- A truthy `str` value. -/
  | str (s : String)
  /-- Any other truthy object, recorded by its `str()` rendering. -/
  | other (s : String)
  /-- A truthy object whose formatting raises inside the `try` block. -/
  | exnVal
deriving DecidableEq

structure Article where
  id : Option String := none
  url : Option String := none
  title : Option String := none
  source : Option String := none
  summary : Option String := none
  priority : Option String := none
  category : Option String := none
  topics : Option (List String) := none
  keywords : Option (List String) := none
  published_at : PubDate := .absent
  image_url : Option String := none

/-- Python `x or d` for an optional string: `None` and `""` fall back. -/
def pyOr (v : Option String) (d : String) : String :=
  match v with
  | none => d
  | some s => if s = "" then d else s

/-- Lines 122–138 of `digest.py`: the published-date fallback chain.
`published_date` starts as the fallback and is only overwritten when the
truthiness test passes and no exception occurs. -/
def formatPublished : PubDate → String
  | .absent => "Datum unbekannt"
  | .exnVal => "Datum unbekannt"
  | .dt d m y => fmtDMY d m y
  | .str s =>
    if s = "" then "Datum unbekannt"
    else
      match fromisoformat (replaceZ s.data) with
      | some (y, m, d) => fmtDMY d m y
      | none => take10 s
  | .other s => take10 s

/-! ## The card pieces (lines 140–181 of `digest.py`) -/

def displayTitle (a : Article) : String := htmlEscape (pyOr a.title "Kein Titel")

def displaySource (a : Article) : String := htmlEscape (pyOr a.source "Unbekannte Quelle")

def displaySummary (a : Article) : String := htmlEscape (pyOr a.summary "Keine Zusammenfassung verfügbar")

def displayUrl (a : Article) : String := htmlEscape (pyOr a.url "#")

def displayPriority (a : Article) : String := (pyOr a.priority "").toLower

def displayCategory (a : Article) : String := htmlEscape (pyOr a.category "")

/-- `get_priority_badge` from the source. -/
def get_priority_badge (priority : String) : String :=
  if priority = "high" then badgeHigh
  else if priority = "medium" then badgeMedium
  else ""

def priorityClass (a : Article) : String :=
  if displayPriority a = "high" then "high-priority"
  else if displayPriority a = "medium" then "medium-priority"
  else ""

def categoryStr (a : Article) : String :=
  if displayCategory a = "" then "" else " | " ++ displayCategory a

/-- `(topics + keywords)[:5]`. -/
def allTags (a : Article) : List String := (a.topics.getD [] ++ a.keywords.getD []).take 5

/-- One tag chip. -/
def tagChip (t : String) : String := "<span class=\"keyword\">" ++ htmlEscape t ++ "</span>"

/-- The optional tag-chip block. -/
def keywordsHtml (a : Article) : String :=
  if allTags a = [] then ""
  else "<div class=\"keywords\">" ++ concatS ((allTags a).map tagChip) ++ "</div>"

/-- One article card: the body of the `for article in articles` loop. -/
def articleCard (a : Article) : String :=
  cardA ++ priorityClass a ++ cardB ++ "<h2>" ++ displayTitle a
    ++ get_priority_badge (displayPriority a) ++ cardC
    ++ formatPublished a.published_at ++ " | " ++ displaySource a ++ categoryStr a
    ++ cardD ++ displaySummary a ++ cardE ++ keywordsHtml a
    ++ cardF ++ displayUrl a ++ cardG

/-! ## Header date and document assembly -/

/-- The render-time clock value (`datetime.now()`). -/
structure Now where
  weekday : Nat
  day : Nat
  month : Nat
  year : Nat

def germanWeekdays : List String :=
  ["Montag", "Dienstag", "Mittwoch", "Donnerstag", "Freitag", "Samstag", "Sonntag"]

def germanMonths : List String :=
  ["", "Januar", "Februar", "März", "April", "Mai", "Juni",
   "Juli", "August", "September", "Oktober", "November", "Dezember"]

/-- The header date string.  The system-locale branches of lines 36–50 are
environment-dependent; embedded is the locale-independent manual fallback
(same German weekday/month tables, same shape), which no claim depends on. -/
def headerDate (now : Now) : String :=
  germanWeekdays.getD now.weekday "" ++ ", " ++ natStr now.day ++ ". "
    ++ germanMonths.getD now.month "" ++ " " ++ natStr now.year

def headerHtml (now : Now) : String :=
  headerA ++ logo_base64 ++ headerB ++ headerDate now ++ headerC

def statsHtml (article_count : Nat) (total_candidates : Int) : String :=
  statsA ++ natStr article_count ++ statsB
    ++ (if 0 < total_candidates then intStr total_candidates else natStr article_count)
    ++ statsC ++ natStr article_count ++ statsD

/-- The document part between header and footer: the empty-state placeholder,
or the stats box followed by the article cards in input order. -/
def bodyHtml (articles : List Article) (total_candidates : Int) : String :=
  if articles.length = 0 then noArticlesHtml
  else statsHtml articles.length total_candidates ++ concatS (articles.map articleCard)

/-- `generate_digest_html` (lines 27–191 of `digest.py`). -/
def generate_digest_html (articles : List Article) (total_candidates : Int)
    (usecase : String) (now : Now) : String :=
  headerHtml now ++ bodyHtml articles total_candidates ++ (footerPre ++ usecase ++ footerPost)

/-! ## Lemmas about the scanning utilities -/

theorem isPrefB_length {p xs : List Char} (h : isPrefB p xs = true) : p.length ≤ xs.length := by
  induction p generalizing xs with
  | nil => simp
  | cons a as ih =>
    cases xs with
    | nil => simp [isPrefB] at h
    | cons b bs =>
      simp only [isPrefB, Bool.and_eq_true, beq_iff_eq] at h
      have := ih h.2
      simp only [List.length_cons]
      omega

theorem isPrefB_append_left {p xs : List Char} (ys : List Char) (h : isPrefB p xs = true) :
    isPrefB p (xs ++ ys) = true := by
  induction p generalizing xs with
  | nil => rfl
  | cons a as ih =>
    cases xs with
    | nil => simp [isPrefB] at h
    | cons b bs =>
      simp only [isPrefB, Bool.and_eq_true, beq_iff_eq] at h
      simp only [List.cons_append, isPrefB, Bool.and_eq_true, beq_iff_eq]
      exact ⟨h.1, ih h.2⟩

theorem isPrefB_refl (p : List Char) : isPrefB p p = true := by
  induction p with
  | nil => rfl
  | cons a as ih => simp [isPrefB, ih]

theorem isPrefB_self_append (p ys : List Char) : isPrefB p (p ++ ys) = true :=
  isPrefB_append_left ys (isPrefB_refl p)

theorem isPrefB_stable {p xs : List Char} (ys : List Char) (h : p.length ≤ xs.length) :
    isPrefB p (xs ++ ys) = isPrefB p xs := by
  induction p generalizing xs with
  | nil => rfl
  | cons a as ih =>
    cases xs with
    | nil => simp at h
    | cons b bs =>
      simp only [List.length_cons] at h
      show (a == b && isPrefB as (bs ++ ys)) = (a == b && isPrefB as bs)
      rw [ih (by omega)]

theorem isPrefB_trans {a b c : List Char} (h1 : isPrefB a b = true) (h2 : isPrefB b c = true) :
    isPrefB a c = true := by
  induction a generalizing b c with
  | nil => rfl
  | cons x xs ih =>
    cases b with
    | nil => simp [isPrefB] at h1
    | cons y ys =>
      cases c with
      | nil => simp [isPrefB] at h2
      | cons z zs =>
        simp only [isPrefB, Bool.and_eq_true, beq_iff_eq] at h1 h2 ⊢
        exact ⟨h1.1.trans h2.1, ih h1.2 h2.2⟩

theorem isPrefB_take {p xs ys : List Char} (h : isPrefB p (xs ++ ys) = true)
    (hl : xs.length ≤ p.length) : isPrefB xs p = true := by
  induction xs generalizing p ys with
  | nil => rfl
  | cons b bs ih =>
    cases p with
    | nil => simp at hl
    | cons a as =>
      simp only [List.cons_append, isPrefB, Bool.and_eq_true, beq_iff_eq] at h
      simp only [List.length_cons] at hl
      simp only [isPrefB, Bool.and_eq_true, beq_iff_eq]
      exact ⟨h.1.symm, ih h.2 (by omega)⟩

theorem isPrefB_mem {p xs : List Char} {c : Char} (h : isPrefB p xs = true) (hc : c ∈ p) :
    c ∈ xs := by
  induction p generalizing xs with
  | nil => simp at hc
  | cons a as ih =>
    cases xs with
    | nil => simp [isPrefB] at h
    | cons b bs =>
      simp only [isPrefB, Bool.and_eq_true, beq_iff_eq] at h
      rcases List.mem_cons.mp hc with h1 | h1
      · simp [h1, h.1]
      · exact List.mem_cons_of_mem _ (ih h.2 h1)

theorem countPat_le_append_right (pat l r : List Char) :
    countPat pat r ≤ countPat pat (l ++ r) := by
  induction l with
  | nil => simp
  | cons c l' ih =>
    calc countPat pat r ≤ countPat pat (l' ++ r) := ih
    _ ≤ countPat pat (c :: (l' ++ r)) := by
        simp only [countPat]
        exact Nat.le_add_left _ _
    _ = countPat pat ((c :: l') ++ r) := by simp

theorem countPat_pos_append_right {pat r : List Char} (l : List Char)
    (h : 0 < countPat pat r) : 0 < countPat pat (l ++ r) :=
  lt_of_lt_of_le h (countPat_le_append_right pat l r)

theorem countPat_pos_head {pat r : List Char} (hr : r ≠ []) :
    0 < countPat pat (pat ++ r) := by
  cases pat with
  | nil =>
    cases r with
    | nil => exact absurd rfl hr
    | cons c rest =>
      simp [countPat, isPrefB]
  | cons p ps =>
    have hp : isPrefB (p :: ps) ((p :: ps) ++ r) = true := isPrefB_self_append _ _
    simp only [List.cons_append] at hp ⊢
    simp only [countPat, hp, if_true]
    omega

theorem tailRiskB_cons {pat : List Char} {c : Char} {xs : List Char}
    (h : tailRiskB pat (c :: xs) = false) : tailRiskB pat xs = false := by
  simp only [tailRiskB, Bool.or_eq_false_iff] at h
  exact h.2

theorem countPat_append {pat l r : List Char} (h : tailRiskB pat l = false) :
    countPat pat (l ++ r) = countPat pat l + countPat pat r := by
  induction l with
  | nil => simp [countPat]
  | cons c l' ih =>
    have htail : tailRiskB pat l' = false := tailRiskB_cons h
    have key : isPrefB pat (c :: (l' ++ r)) = isPrefB pat (c :: l') := by
      by_cases hlen : pat.length ≤ (c :: l').length
      · have := @isPrefB_stable pat (c :: l') r hlen
        simpa using this
      · have hright : isPrefB pat (c :: l') = false := by
          cases hp : isPrefB pat (c :: l')
          · rfl
          · exact absurd (isPrefB_length hp) hlen
        have hleft : isPrefB pat (c :: (l' ++ r)) = false := by
          cases hp : isPrefB pat (c :: (l' ++ r))
          · rfl
          · exfalso
            have hpre : isPrefB (c :: l') pat = true := by
              refine @isPrefB_take pat (c :: l') r ?_ (by omega)
              simpa using hp
            have hlt : l'.length + 1 < pat.length := by
              simp only [List.length_cons] at hlen
              omega
            have hbad : tailRiskB pat (c :: l') = true := by
              simp [tailRiskB, hpre]
              exact Or.inl hlt
            rw [h] at hbad
            exact absurd hbad (by decide)
        rw [hleft, hright]
    show (if isPrefB pat (c :: (l' ++ r)) = true then 1 else 0) + countPat pat (l' ++ r)
        = ((if isPrefB pat (c :: l') = true then 1 else 0) + countPat pat l') + countPat pat r
    rw [key, ih htail]
    omega

theorem tailRiskB_append {pat l r : List Char} (hl : tailRiskB pat l = false)
    (hr : tailRiskB pat r = false) : tailRiskB pat (l ++ r) = false := by
  induction l with
  | nil => simpa using hr
  | cons c l' ih =>
    have hl' : tailRiskB pat l' = false := tailRiskB_cons hl
    show ((isPrefB (c :: (l' ++ r)) pat && decide ((c :: (l' ++ r)).length < pat.length))
        || tailRiskB pat (l' ++ r)) = false
    rw [ih hl']
    simp only [Bool.or_false]
    cases hp : isPrefB (c :: (l' ++ r)) pat
    · simp
    · by_cases hlen : (c :: (l' ++ r)).length < pat.length
      · exfalso
        have h1 : isPrefB (c :: l') pat = true :=
          isPrefB_trans (isPrefB_self_append (c :: l') r) hp
        have hlt : l'.length + 1 < pat.length := by
          simp only [List.length_cons, List.length_append] at hlen
          omega
        have hbad : tailRiskB pat (c :: l') = true := by
          simp [tailRiskB, h1]
          exact Or.inl hlt
        rw [hl] at hbad
        exact absurd hbad (by decide)
      · simp only [List.length_cons, List.length_append] at hlen
        simp
        omega

theorem scanOkB_count {pat cs : List Char} (h : scanOkB pat cs = true) : countPat pat cs = 0 := by
  simp only [scanOkB, Bool.and_eq_true, beq_iff_eq] at h
  exact h.1

theorem scanOkB_tail {pat cs : List Char} (h : scanOkB pat cs = true) :
    tailRiskB pat cs = false := by
  simp only [scanOkB, Bool.and_eq_true, Bool.not_eq_true'] at h
  exact h.2

theorem scanOkB_append {pat l r : List Char} (hl : scanOkB pat l = true)
    (hr : scanOkB pat r = true) : scanOkB pat (l ++ r) = true := by
  have h1 := scanOkB_count hl
  have h2 := scanOkB_count hr
  have h3 := scanOkB_tail hl
  have h4 := scanOkB_tail hr
  simp [scanOkB, countPat_append h3, h1, h2, tailRiskB_append h3 h4]

theorem scanOkB_nil (pat : List Char) : scanOkB pat [] = true := by
  simp [scanOkB, countPat, tailRiskB]

theorem ltFreeB_ne {cs : List Char} (h : ltFreeB cs = true) {c : Char} (hc : c ∈ cs) :
    ¬ c = '<' := by
  simp only [ltFreeB, List.all_eq_true, Bool.not_eq_true', beq_eq_false_iff_ne, ne_eq] at h
  exact h c hc

theorem ltFreeB_tail {c : Char} {rest : List Char} (h : ltFreeB (c :: rest) = true) :
    ltFreeB rest = true := by
  simp only [ltFreeB, List.all_cons, Bool.and_eq_true] at h
  exact h.2

theorem ltFreeB_cons_of {c : Char} (hc : ¬ c = '<') {rest : List Char}
    (h : ltFreeB rest = true) : ltFreeB (c :: rest) = true := by
  simp only [ltFreeB, List.all_cons, Bool.and_eq_true, Bool.not_eq_true',
    beq_eq_false_iff_ne, ne_eq]
  exact ⟨hc, by simpa [ltFreeB] using h⟩

theorem ltFreeB_append {l r : List Char} :
    ltFreeB (l ++ r) = (ltFreeB l && ltFreeB r) := by
  simp [ltFreeB, List.all_append]

theorem scanOkB_of_ltFree {qs cs : List Char} (h : ltFreeB cs = true) :
    scanOkB ('<' :: qs) cs = true := by
  induction cs with
  | nil => exact scanOkB_nil _
  | cons c rest ih =>
    have hne : ¬ c = '<' := ltFreeB_ne h (List.mem_cons_self c rest)
    have hc1 : ('<' == c) = false := beq_eq_false_iff_ne.mpr (fun e => hne e.symm)
    have hc2 : (c == '<') = false := beq_eq_false_iff_ne.mpr hne
    have hih := ih (ltFreeB_tail h)
    have hpre : isPrefB ('<' :: qs) (c :: rest) = false := by
      show ('<' == c && isPrefB qs rest) = false
      rw [hc1]
      rfl
    have hpre2 : isPrefB (c :: rest) ('<' :: qs) = false := by
      show (c == '<' && isPrefB rest qs) = false
      rw [hc2]
      rfl
    have hcount : countPat ('<' :: qs) (c :: rest) = countPat ('<' :: qs) rest := by
      show (if isPrefB ('<' :: qs) (c :: rest) = true then 1 else 0)
          + countPat ('<' :: qs) rest = countPat ('<' :: qs) rest
      rw [hpre]
      simp
    have htail : tailRiskB ('<' :: qs) (c :: rest) = tailRiskB ('<' :: qs) rest := by
      show ((isPrefB (c :: rest) ('<' :: qs) && decide ((c :: rest).length < ('<' :: qs).length))
          || tailRiskB ('<' :: qs) rest) = tailRiskB ('<' :: qs) rest
      rw [hpre2]
      simp
    simp only [scanOkB] at hih ⊢
    rw [hcount, htail]
    exact hih

/-! ## Lemmas about the escaper and digits -/

theorem cleanB_escChar (c : Char) : cleanB (escChar c) = true := by
  unfold escChar
  by_cases h1 : c = '&'
  · rw [if_pos h1]; decide
  rw [if_neg h1]
  by_cases h2 : c = '<'
  · rw [if_pos h2]; decide
  rw [if_neg h2]
  by_cases h3 : c = '>'
  · rw [if_pos h3]; decide
  rw [if_neg h3]
  by_cases h4 : c = '"'
  · rw [if_pos h4]; decide
  rw [if_neg h4]
  by_cases h5 : c = '\''
  · rw [if_pos h5]; decide
  rw [if_neg h5]
  simp [cleanB, h2, h3, h4]

theorem cleanB_append {l r : List Char} : cleanB (l ++ r) = (cleanB l && cleanB r) := by
  simp [cleanB, List.all_append]

theorem cleanB_escapeL (cs : List Char) : cleanB (escapeL cs) = true := by
  induction cs with
  | nil => rfl
  | cons c rest ih =>
    show cleanB (escChar c ++ escapeL rest) = true
    rw [cleanB_append, cleanB_escChar, ih]
    rfl

theorem ltFreeB_of_cleanB {cs : List Char} (h : cleanB cs = true) : ltFreeB cs = true := by
  induction cs with
  | nil => rfl
  | cons c rest ih =>
    simp only [cleanB, List.all_cons, Bool.and_eq_true] at h
    have h1 : ¬ c = '<' ∧ ¬ c = '>' := by
      have := h.1.1
      simpa using this
    exact ltFreeB_cons_of h1.1 (ih h.2)

theorem ltFreeB_escapeL (cs : List Char) : ltFreeB (escapeL cs) = true :=
  ltFreeB_of_cleanB (cleanB_escapeL cs)

theorem escapeL_append (l r : List Char) : escapeL (l ++ r) = escapeL l ++ escapeL r := by
  induction l with
  | nil => rfl
  | cons c rest ih => simp [escapeL, ih]

theorem escChar_ne_nil (c : Char) : escChar c ≠ [] := by
  unfold escChar
  by_cases h1 : c = '&'
  · rw [if_pos h1]; decide
  rw [if_neg h1]
  by_cases h2 : c = '<'
  · rw [if_pos h2]; decide
  rw [if_neg h2]
  by_cases h3 : c = '>'
  · rw [if_pos h3]; decide
  rw [if_neg h3]
  by_cases h4 : c = '"'
  · rw [if_pos h4]; decide
  rw [if_neg h4]
  by_cases h5 : c = '\''
  · rw [if_pos h5]; decide
  rw [if_neg h5]
  simp

theorem escapeL_ne_nil {cs : List Char} (h : cs ≠ []) : escapeL cs ≠ [] := by
  cases cs with
  | nil => exact absurd rfl h
  | cons c rest =>
    show escChar c ++ escapeL rest ≠ []
    simp [escChar_ne_nil c]

theorem digitCh_ne_lt (d : Nat) : ¬ digitCh d = '<' := by
  rcases d with _|_|_|_|_|_|_|_|_|_|n
  all_goals try decide
  show ¬ ("0123456789".data.getD (n + 10) '0') = '<'
  rw [List.getD_eq_default]
  · decide
  · have h10 : ("0123456789".data).length = 10 := by decide
    omega

theorem ltFreeB_natStrLAux (fuel n : Nat) : ltFreeB (natStrLAux fuel n) = true := by
  induction fuel generalizing n with
  | zero => rfl
  | succ fuel ih =>
    show ltFreeB (if n < 10 then [digitCh n]
        else natStrLAux fuel (n / 10) ++ [digitCh (n % 10)]) = true
    by_cases h : n < 10
    · rw [if_pos h]; exact ltFreeB_cons_of (digitCh_ne_lt n) rfl
    · rw [if_neg h, ltFreeB_append, ih]
      have h2 : ltFreeB [digitCh (n % 10)] = true := ltFreeB_cons_of (digitCh_ne_lt _) rfl
      rw [h2]
      rfl

theorem ltFreeB_natStrL (n : Nat) : ltFreeB (natStrL n) = true := ltFreeB_natStrLAux _ _

theorem ltFreeB_natStr (n : Nat) : ltFreeB (natStr n).data = true := ltFreeB_natStrL n

theorem ltFreeB_intStr (i : Int) : ltFreeB (intStr i).data = true := by
  unfold intStr
  split
  · show ltFreeB ('-' :: natStrL i.natAbs) = true
    exact ltFreeB_cons_of (by decide) (ltFreeB_natStrL _)
  · exact ltFreeB_natStrL _

/-! ## Lemmas about extraction -/

theorem untilLt_append_lt {t : List Char} (h : ltFreeB t = true) (zs : List Char) :
    untilLt (t ++ '<' :: zs) = t := by
  induction t with
  | nil => simp [untilLt]
  | cons c rest ih =>
    have hc : ¬ c = '<' := ltFreeB_ne h (List.mem_cons_self _ _)
    simp [untilLt, hc, ih (ltFreeB_tail h)]

theorem extractAfter_cons_pos {pat : List Char} {c : Char} {rest : List Char}
    (h : isPrefB pat (c :: rest) = true) :
    extractAfter pat (c :: rest)
      = untilLt (rest.drop (pat.length - 1)) :: extractAfter pat (rest.drop (pat.length - 1)) := by
  rw [extractAfter, if_pos h]

theorem extractAfter_cons_neg {pat : List Char} {c : Char} {rest : List Char}
    (h : isPrefB pat (c :: rest) = false) :
    extractAfter pat (c :: rest) = extractAfter pat rest := by
  rw [extractAfter, if_neg]
  simp [h]

theorem extractAfter_nil (pat : List Char) : extractAfter pat [] = [] := by
  rw [extractAfter]

theorem extractAfter_pass {pat p : List Char} (xs : List Char) (h : scanOkB pat p = true) :
    extractAfter pat (p ++ xs) = extractAfter pat xs := by
  induction p with
  | nil => rfl
  | cons c p' ih =>
    have hcount := scanOkB_count h
    have htail := scanOkB_tail h
    have hpre : isPrefB pat (c :: (p' ++ xs)) = false := by
      by_cases hlen : pat.length ≤ (c :: p').length
      · cases hp : isPrefB pat (c :: (p' ++ xs))
        · rfl
        · exfalso
          have hp2 : isPrefB pat (c :: p') = true := by
            have hst := @isPrefB_stable pat (c :: p') xs hlen
            rw [← hst]
            simpa using hp
          have hone : countPat pat (c :: p') = 1 + countPat pat p' := by
            show (if isPrefB pat (c :: p') = true then 1 else 0) + countPat pat p'
                = 1 + countPat pat p'
            rw [hp2]
            simp
          omega
      · cases hp : isPrefB pat (c :: (p' ++ xs))
        · rfl
        · exfalso
          have hpre2 : isPrefB (c :: p') pat = true := by
            refine @isPrefB_take pat (c :: p') xs ?_ (by omega)
            simpa using hp
          have hlt : p'.length + 1 < pat.length := by
            simp only [List.length_cons] at hlen
            omega
          have hbad : tailRiskB pat (c :: p') = true := by
            simp [tailRiskB, hpre2]
            exact Or.inl hlt
          rw [htail] at hbad
          exact absurd hbad (by decide)
    have h' : scanOkB pat p' = true := by
      have c1 : countPat pat p' = 0 := by
        have heq : countPat pat (c :: p')
            = (if isPrefB pat (c :: p') = true then 1 else 0) + countPat pat p' := rfl
        omega
      have c2 : tailRiskB pat p' = false := tailRiskB_cons htail
      simp [scanOkB, c1, c2]
    show extractAfter pat (c :: (p' ++ xs)) = extractAfter pat xs
    rw [extractAfter_cons_neg hpre]
    exact ih h'

theorem extractAfter_grab {qs t zs : List Char} (ht : ltFreeB t = true) :
    extractAfter ('<' :: qs) (('<' :: qs) ++ (t ++ '<' :: zs))
      = t :: extractAfter ('<' :: qs) (t ++ '<' :: zs) := by
  have hpre : isPrefB ('<' :: qs) ('<' :: (qs ++ (t ++ '<' :: zs))) = true := by
    have hsa := isPrefB_self_append ('<' :: qs) (t ++ '<' :: zs)
    simpa using hsa
  show extractAfter ('<' :: qs) ('<' :: (qs ++ (t ++ '<' :: zs))) = _
  rw [extractAfter_cons_pos hpre]
  have hlen : ('<' :: qs).length - 1 = qs.length := by simp
  rw [hlen, List.drop_left, untilLt_append_lt ht]

theorem countPat_le_append_left (pat l r : List Char) :
    countPat pat l ≤ countPat pat (l ++ r) := by
  induction l with
  | nil => simp [countPat]
  | cons c l' ih =>
    show (if isPrefB pat (c :: l') = true then 1 else 0) + countPat pat l'
        ≤ (if isPrefB pat (c :: (l' ++ r)) = true then 1 else 0) + countPat pat (l' ++ r)
    have hite : (if isPrefB pat (c :: l') = true then 1 else 0)
        ≤ (if isPrefB pat (c :: (l' ++ r)) = true then 1 else 0) := by
      cases hp : isPrefB pat (c :: l')
      · simp
      · have hp2 : isPrefB pat (c :: (l' ++ r)) = true := by
          have := @isPrefB_append_left pat (c :: l') r hp
          simpa using this
        simp [hp2]
    exact Nat.add_le_add hite ih

theorem countPat_pos_append_left {pat l : List Char} (r : List Char)
    (h : 0 < countPat pat l) : 0 < countPat pat (l ++ r) :=
  lt_of_lt_of_le h (countPat_le_append_left pat l r)

theorem data_concatS_cons (s : String) (L : List String) :
    (concatS (s :: L)).data = s.data ++ (concatS L).data := by
  show (s ++ concatS L).data = _
  exact String.data_append _ _

theorem countPat_pos_concatS {pat : List Char} {s : String} {L : List String}
    (hs : s ∈ L) (h : 0 < countPat pat s.data) :
    0 < countPat pat (concatS L).data := by
  induction L with
  | nil => simp at hs
  | cons x L' ih =>
    rw [data_concatS_cons]
    rcases List.mem_cons.mp hs with h1 | h1
    · subst h1
      exact countPat_pos_append_left _ h
    · exact countPat_pos_append_right _ (ih h1)

theorem scanOkB_concatS {pat : List Char} {L : List String}
    (h : ∀ s ∈ L, scanOkB pat s.data = true) : scanOkB pat (concatS L).data = true := by
  induction L with
  | nil =>
    have he : (concatS []).data = [] := rfl
    rw [he]
    exact scanOkB_nil _
  | cons s L' ih =>
    rw [data_concatS_cons]
    exact scanOkB_append (h s (by simp)) (ih fun x hx => h x (by simp [hx]))

theorem ltFreeB_logo : ltFreeB logo_base64.data = true := by
  show ltFreeB ((logoPart1 ++ logoPart2 ++ logoPart3 ++ logoPart4 ++ logoPart5
      ++ logoPart6 ++ logoPart7).data) = true
  simp only [String.data_append, ltFreeB_append]
  decide

theorem ltFreeB_weekday (i : Nat) : ltFreeB ((germanWeekdays.getD i "").data) = true := by
  rcases i with _|_|_|_|_|_|_|n
  all_goals try decide
  show ltFreeB ((germanWeekdays.getD (n + 7) "").data) = true
  rw [List.getD_eq_default]
  · decide
  · have h7 : germanWeekdays.length = 7 := by decide
    omega

theorem ltFreeB_month (i : Nat) : ltFreeB ((germanMonths.getD i "").data) = true := by
  rcases i with _|_|_|_|_|_|_|_|_|_|_|_|_|n
  all_goals try decide
  show ltFreeB ((germanMonths.getD (n + 13) "").data) = true
  rw [List.getD_eq_default]
  · decide
  · have h13 : germanMonths.length = 13 := by decide
    omega

theorem ltFreeB_headerDate (now : Now) : ltFreeB (headerDate now).data = true := by
  show ltFreeB ((germanWeekdays.getD now.weekday "" ++ ", " ++ natStr now.day ++ ". "
      ++ germanMonths.getD now.month "" ++ " " ++ natStr now.year).data) = true
  simp only [String.data_append, ltFreeB_append]
  rw [ltFreeB_weekday, ltFreeB_month, ltFreeB_natStr, ltFreeB_natStr]
  decide

/-! ## Authentication and the digest endpoints

`verify_api_key` is from `api/security.py`; FastAPI resolves it (a `Depends`)
before the endpoint body runs, so the endpoints are modelled as: run the key
check first, and only in the success branch touch the article store or the
renderer. -/

inductive AuthResult
  /-- Key matched; the handler runs. -/
  | ok (key : String)
  /-- No `X-API-Key` header: HTTP 401. -/
  | unauthorized
  /-- Header present but key mismatch: HTTP 403. -/
  | forbidden
deriving DecidableEq

/-- `verify_api_key` (`api/security.py`, lines 12–34). -/
def verify_api_key (api_key : Option String) (configured_key : String) : AuthResult :=
  match api_key with
  | none => .unauthorized
  | some k => if k = configured_key then .ok k else .forbidden

/-- `GET /api/digest/preview`: auth check, then read the store, then render
with the default usecase (line 252 of `digest.py`). -/
def preview_digest (api_key : Option String) (configured_key : String)
    (stored : List Article) (total : Int) (now : Now) : Except Nat String :=
  match verify_api_key api_key configured_key with
  | .unauthorized => .error 401
  | .forbidden => .error 403
  | .ok _ => .ok (generate_digest_html stored total "daily_newsletter" now)

/-- `GET /api/digest/data`: auth check, then the raw article data. -/
def get_digest_data (api_key : Option String) (configured_key : String)
    (stored : List Article) : Except Nat (Nat × List Article) :=
  match verify_api_key api_key configured_key with
  | .unauthorized => .error 401
  | .forbidden => .error 403
  | .ok _ => .ok (stored.length, stored)

/-! ## The render endpoint's renderer (spec-modelled)

Modelled from the spec: the `POST /api/digest/render` endpoint and its
renderer version (spec §4.4/§4.5: signature
`render(articles, total_candidates, usecase, tagline)`, a header tagline that
falls back to a static default, and a per-card image block present iff
`image_url` is non-empty) are not under `src/`; only their contract tests
(`api/tests/test_digest.py`, `TestDigestRenderContract`) are.  The
definitions below follow the spec's words, reusing the template pieces the
repository's in-tree renderer shares with them. -/

/-- Modelled from the spec: the static default header line used when
`tagline` is empty. -/
def defaultTagline : String := "KI-kuratierte Auswahl der wichtigsten Nachrichten"

/-- Modelled from the spec: the optional full-width image block, present iff
`image_url` resolves to a non-empty value, absent otherwise (no placeholder
markup).  The test contract marks the block by its `object-fit: cover`
style. -/
def imageBlock (a : Article) : String :=
  if pyOr a.image_url "" = "" then ""
  else
    "\n    <div class=\"article-image\"><img src=\"" ++ pyOr a.image_url ""
      ++ "\" style=\"width: 100%; height: 200px; object-fit: cover;\"></div>"

/-- Modelled from the spec: one card of the render endpoint's renderer —
optional image block first, then title, meta line, summary, tags and link as
in the in-tree renderer. -/
def renderCard (a : Article) : String :=
  cardA ++ priorityClass a ++ cardB ++ imageBlock a ++ "<h2>" ++ displayTitle a
    ++ get_priority_badge (displayPriority a) ++ cardC
    ++ formatPublished a.published_at ++ " | " ++ displaySource a ++ categoryStr a
    ++ cardD ++ displaySummary a ++ cardE ++ keywordsHtml a
    ++ cardF ++ displayUrl a ++ cardG

/-- Modelled from the spec: the header of the render endpoint's renderer,
whose subtitle line shows `tagline` when non-empty and the static default
otherwise. -/
def renderHeader (now : Now) (tagline : String) : String :=
  headerA ++ logo_base64 ++ headerB ++ headerDate now
    ++ "</h1>\n    <div class=\"subtitle\">"
    ++ (if tagline = "" then defaultTagline else tagline)
    ++ "</div>\n  </div>\n"

/-- Modelled from the spec: the body of the render endpoint's renderer —
placeholder when empty, else stats box and the cards in input order. -/
def renderBody (articles : List Article) (total_candidates : Int) : String :=
  if articles.length = 0 then noArticlesHtml
  else statsHtml articles.length total_candidates ++ concatS (articles.map renderCard)

/-- Modelled from the spec: `render(articles, total_candidates, usecase,
tagline)`, the renderer behind `POST /api/digest/render` (plus the clock
value that the date formatter reads). -/
def render (articles : List Article) (total_candidates : Int)
    (usecase tagline : String) (now : Now) : String :=
  renderHeader now tagline ++ renderBody articles total_candidates
    ++ (footerPre ++ usecase ++ footerPost)

/-- Modelled from the spec: `POST /api/digest/render` — same auth gate as the
other digest endpoints, then the spec's renderer. -/
def render_digest (api_key : Option String) (configured_key : String)
    (articles : List Article) (total_candidates : Int)
    (usecase tagline : String) (now : Now) : Except Nat String :=
  match verify_api_key api_key configured_key with
  | .unauthorized => .error 401
  | .forbidden => .error 403
  | .ok _ => .ok (render articles total_candidates usecase tagline now)

/-- The record with only `id` and `url` set (claim C1's article shape). -/
def onlyIdUrlArticle (idv urlv : String) : Article :=
  { id := some idv, url := some urlv }

/-- `needle` occurs somewhere in `hay` (both strings). -/
def containsStr (hay needle : String) : Prop := 0 < countPat needle.data hay.data

/-! ## The document as a right-nested chain of blocks -/

theorem articleCard_data (a : Article) :
    (articleCard a).data
      = cardA.data ++ ((priorityClass a).data ++ (cardB.data ++ ("<h2>".data
        ++ ((displayTitle a).data ++ ((get_priority_badge (displayPriority a)).data
        ++ (cardC.data ++ ((formatPublished a.published_at).data ++ (" | ".data
        ++ ((displaySource a).data ++ ((categoryStr a).data ++ (cardD.data
        ++ ((displaySummary a).data ++ (cardE.data ++ ((keywordsHtml a).data
        ++ (cardF.data ++ ((displayUrl a).data ++ cardG.data)))))))))))))))) := by
  simp [articleCard, String.data_append, List.append_assoc]

theorem gdh_data (articles : List Article) (tc : Int) (uc : String) (now : Now) :
    (generate_digest_html articles tc uc now).data
      = headerA1.data ++ (headerA2.data ++ (headerA3.data ++ (logoPart1.data ++ (logoPart2.data
        ++ (logoPart3.data ++ (logoPart4.data ++ (logoPart5.data ++ (logoPart6.data
        ++ (logoPart7.data ++ (headerB.data ++ ((headerDate now).data ++ (headerC.data
        ++ ((bodyHtml articles tc).data ++ (footerPre.data ++ (uc.data
        ++ footerPost.data))))))))))))))) := by
  simp [generate_digest_html, headerHtml, headerA, logo_base64, String.data_append,
    List.append_assoc]

theorem ltFreeB_displayTitle (a : Article) : ltFreeB (displayTitle a).data = true :=
  ltFreeB_escapeL _

theorem ltFreeB_displaySource (a : Article) : ltFreeB (displaySource a).data = true :=
  ltFreeB_escapeL _

theorem ltFreeB_displaySummary (a : Article) : ltFreeB (displaySummary a).data = true :=
  ltFreeB_escapeL _

theorem ltFreeB_displayUrl (a : Article) : ltFreeB (displayUrl a).data = true :=
  ltFreeB_escapeL _

/-! ## Scan safety of the dynamic card pieces -/

theorem scanOkB_priorityClass {qs : List Char} (a : Article) :
    scanOkB ('<' :: qs) (priorityClass a).data = true := by
  unfold priorityClass
  by_cases h1 : displayPriority a = "high"
  · rw [if_pos h1]; exact scanOkB_of_ltFree (by decide)
  rw [if_neg h1]
  by_cases h2 : displayPriority a = "medium"
  · rw [if_pos h2]; exact scanOkB_of_ltFree (by decide)
  · rw [if_neg h2]; exact scanOkB_of_ltFree (by decide)

theorem scanOkB_badge {qs : List Char} (p : String)
    (hH : scanOkB ('<' :: qs) badgeHigh.data = true)
    (hM : scanOkB ('<' :: qs) badgeMedium.data = true) :
    scanOkB ('<' :: qs) (get_priority_badge p).data = true := by
  unfold get_priority_badge
  by_cases h1 : p = "high"
  · rw [if_pos h1]; exact hH
  rw [if_neg h1]
  by_cases h2 : p = "medium"
  · rw [if_pos h2]; exact hM
  · rw [if_neg h2]; exact scanOkB_of_ltFree (by decide)

theorem scanOkB_categoryStr {qs : List Char} (a : Article) :
    scanOkB ('<' :: qs) (categoryStr a).data = true := by
  unfold categoryStr
  by_cases h1 : displayCategory a = ""
  · rw [if_pos h1]; exact scanOkB_of_ltFree (by decide)
  · rw [if_neg h1]
    show scanOkB ('<' :: qs) ((" | " ++ displayCategory a).data) = true
    rw [String.data_append]
    exact scanOkB_append (scanOkB_of_ltFree (by decide))
      (scanOkB_of_ltFree (ltFreeB_escapeL _))

theorem scanOkB_keywordsHtml {qs : List Char} (a : Article)
    (hOpen : scanOkB ('<' :: qs) "<div class=\"keywords\">".data = true)
    (hChipO : scanOkB ('<' :: qs) "<span class=\"keyword\">".data = true)
    (hChipC : scanOkB ('<' :: qs) "</span>".data = true)
    (hClose : scanOkB ('<' :: qs) "</div>".data = true) :
    scanOkB ('<' :: qs) (keywordsHtml a).data = true := by
  unfold keywordsHtml
  by_cases h1 : allTags a = []
  · rw [if_pos h1]; exact scanOkB_of_ltFree (by decide)
  · rw [if_neg h1]
    show scanOkB ('<' :: qs) (("<div class=\"keywords\">" ++ concatS ((allTags a).map tagChip)
        ++ "</div>").data) = true
    simp only [String.data_append]
    refine scanOkB_append (scanOkB_append hOpen (scanOkB_concatS ?_)) hClose
    intro s hs
    simp only [List.mem_map] at hs
    obtain ⟨t, ht, rfl⟩ := hs
    unfold tagChip
    simp only [String.data_append]
    exact scanOkB_append (scanOkB_append hChipO (scanOkB_of_ltFree (ltFreeB_escapeL _))) hChipC

theorem scanOkB_card {qs : List Char} (a : Article)
    (hA : scanOkB ('<' :: qs) cardA.data = true)
    (hh2 : scanOkB ('<' :: qs) "<h2>".data = true)
    (hC : scanOkB ('<' :: qs) cardC.data = true)
    (hD : scanOkB ('<' :: qs) cardD.data = true)
    (hE : scanOkB ('<' :: qs) cardE.data = true)
    (hF : scanOkB ('<' :: qs) cardF.data = true)
    (hG : scanOkB ('<' :: qs) cardG.data = true)
    (hbH : scanOkB ('<' :: qs) badgeHigh.data = true)
    (hbM : scanOkB ('<' :: qs) badgeMedium.data = true)
    (hkO : scanOkB ('<' :: qs) "<div class=\"keywords\">".data = true)
    (hcO : scanOkB ('<' :: qs) "<span class=\"keyword\">".data = true)
    (hcC : scanOkB ('<' :: qs) "</span>".data = true)
    (hkC : scanOkB ('<' :: qs) "</div>".data = true)
    (hdate : ltFreeB (formatPublished a.published_at).data = true) :
    scanOkB ('<' :: qs) (articleCard a).data = true := by
  rw [articleCard_data]
  exact scanOkB_append hA (scanOkB_append (scanOkB_priorityClass a)
    (scanOkB_append (scanOkB_of_ltFree (by decide)) (scanOkB_append hh2
    (scanOkB_append (scanOkB_of_ltFree (ltFreeB_displayTitle a))
    (scanOkB_append (scanOkB_badge _ hbH hbM)
    (scanOkB_append hC (scanOkB_append (scanOkB_of_ltFree hdate)
    (scanOkB_append (scanOkB_of_ltFree (by decide))
    (scanOkB_append (scanOkB_of_ltFree (ltFreeB_displaySource a))
    (scanOkB_append (scanOkB_categoryStr a) (scanOkB_append hD
    (scanOkB_append (scanOkB_of_ltFree (ltFreeB_displaySummary a)) (scanOkB_append hE
    (scanOkB_append (scanOkB_keywordsHtml a hkO hcO hcC hkC) (scanOkB_append hF
    (scanOkB_append (scanOkB_of_ltFree (ltFreeB_displayUrl a)) hG))))))))))))))))

theorem scanOkB_statsHtml {qs : List Char} (n : Nat) (tc : Int)
    (hsA : scanOkB ('<' :: qs) statsA.data = true)
    (hsB : scanOkB ('<' :: qs) statsB.data = true)
    (hsC : scanOkB ('<' :: qs) statsC.data = true)
    (hsD : scanOkB ('<' :: qs) statsD.data = true) :
    scanOkB ('<' :: qs) (statsHtml n tc).data = true := by
  unfold statsHtml
  simp only [String.data_append]
  refine scanOkB_append (scanOkB_append (scanOkB_append (scanOkB_append (scanOkB_append
    (scanOkB_append hsA (scanOkB_of_ltFree (ltFreeB_natStr _))) hsB) ?_) hsC)
    (scanOkB_of_ltFree (ltFreeB_natStr _))) hsD
  by_cases htc : (0 : Int) < tc
  · rw [if_pos htc]; exact scanOkB_of_ltFree (ltFreeB_intStr _)
  · rw [if_neg htc]; exact scanOkB_of_ltFree (ltFreeB_natStr _)

theorem scanOkB_body {qs : List Char} (articles : List Article) (tc : Int)
    (hNo : scanOkB ('<' :: qs) noArticlesHtml.data = true)
    (hsA : scanOkB ('<' :: qs) statsA.data = true)
    (hsB : scanOkB ('<' :: qs) statsB.data = true)
    (hsC : scanOkB ('<' :: qs) statsC.data = true)
    (hsD : scanOkB ('<' :: qs) statsD.data = true)
    (hcards : ∀ a ∈ articles, scanOkB ('<' :: qs) (articleCard a).data = true) :
    scanOkB ('<' :: qs) (bodyHtml articles tc).data = true := by
  unfold bodyHtml
  by_cases hlen : articles.length = 0
  · rw [if_pos hlen]; exact hNo
  · rw [if_neg hlen]
    show scanOkB ('<' :: qs)
        ((statsHtml articles.length tc ++ concatS (articles.map articleCard)).data) = true
    rw [String.data_append]
    refine scanOkB_append (scanOkB_statsHtml _ _ hsA hsB hsC hsD) (scanOkB_concatS ?_)
    intro s hs
    simp only [List.mem_map] at hs
    obtain ⟨a, ha, rfl⟩ := hs
    exact hcards a ha

theorem scanOkB_gdh {qs : List Char} (articles : List Article) (tc : Int) (uc : String)
    (now : Now)
    (hA1 : scanOkB ('<' :: qs) headerA1.data = true)
    (hA2 : scanOkB ('<' :: qs) headerA2.data = true)
    (hA3 : scanOkB ('<' :: qs) headerA3.data = true)
    (hB : scanOkB ('<' :: qs) headerB.data = true)
    (hC : scanOkB ('<' :: qs) headerC.data = true)
    (hfPre : scanOkB ('<' :: qs) footerPre.data = true)
    (hfPost : scanOkB ('<' :: qs) footerPost.data = true)
    (hbody : scanOkB ('<' :: qs) (bodyHtml articles tc).data = true)
    (huc : scanOkB ('<' :: qs) uc.data = true) :
    scanOkB ('<' :: qs) (generate_digest_html articles tc uc now).data = true := by
  rw [gdh_data]
  exact scanOkB_append hA1 (scanOkB_append hA2 (scanOkB_append hA3
    (scanOkB_append (scanOkB_of_ltFree (by decide)) (scanOkB_append (scanOkB_of_ltFree (by decide))
    (scanOkB_append (scanOkB_of_ltFree (by decide)) (scanOkB_append (scanOkB_of_ltFree (by decide))
    (scanOkB_append (scanOkB_of_ltFree (by decide)) (scanOkB_append (scanOkB_of_ltFree (by decide))
    (scanOkB_append (scanOkB_of_ltFree (by decide)) (scanOkB_append hB
    (scanOkB_append (scanOkB_of_ltFree (ltFreeB_headerDate now)) (scanOkB_append hC
    (scanOkB_append hbody (scanOkB_append hfPre (scanOkB_append huc hfPost)))))))))))))))

theorem ne_nil_append_of_left {l r : List Char} (h : l ≠ []) : l ++ r ≠ [] := by
  cases l with
  | nil => exact absurd rfl h
  | cons c cs => simp

theorem ne_nil_append_of_right {l r : List Char} (h : r ≠ []) : l ++ r ≠ [] := by
  intro hc
  rcases List.append_eq_nil.mp hc with ⟨h1, h2⟩
  exact h h2

theorem countPat_pos_self {pat : List Char} (h : pat ≠ []) : 0 < countPat pat pat := by
  cases pat with
  | nil => exact absurd rfl h
  | cons c rest =>
    have hp : isPrefB (c :: rest) (c :: rest) = true := isPrefB_refl _
    show 0 < (if isPrefB (c :: rest) (c :: rest) = true then 1 else 0) + countPat (c :: rest) rest
    rw [hp]
    simp

theorem articleCard_data_ne_nil (a : Article) : (articleCard a).data ≠ [] := by
  rw [articleCard_data]
  exact ne_nil_append_of_left (by decide)

theorem countPat_append_zero_left {pat l r : List Char} (h : scanOkB pat l = true) :
    countPat pat (l ++ r) = countPat pat r := by
  rw [countPat_append (scanOkB_tail h), scanOkB_count h, Nat.zero_add]

/-! ## Claim theorems -/

/-- C9: for each of the three digest endpoints, a request with no `X-API-Key`
fails as 401 and a request with a mismatched key fails as 403; the two
failures are distinct status codes, and on failure the result does not depend
on the article store or the clock — no store read and no rendering happens
(the `render` endpoint part is modelled from the spec, the other two are from
`src`). -/
theorem c9_auth_gating (cfg : String) (stored stored2 : List Article) (tc tc2 : Int)
    (uc uc2 tl tl2 : String) (now now2 : Now) :
    (preview_digest none cfg stored tc now = .error 401
      ∧ get_digest_data none cfg stored = .error 401
      ∧ render_digest none cfg stored tc uc tl now = .error 401)
    ∧ (∀ k, k ≠ cfg →
        preview_digest (some k) cfg stored tc now = .error 403
        ∧ get_digest_data (some k) cfg stored = .error 403
        ∧ render_digest (some k) cfg stored tc uc tl now = .error 403)
    ∧ (∀ key : Option String, key ≠ some cfg →
        preview_digest key cfg stored tc now = preview_digest key cfg stored2 tc2 now2
        ∧ get_digest_data key cfg stored = get_digest_data key cfg stored2
        ∧ render_digest key cfg stored tc uc tl now
            = render_digest key cfg stored2 tc2 uc2 tl2 now2) := by
  refine ⟨⟨rfl, rfl, rfl⟩, ?_, ?_⟩
  · intro k hk
    have hv : verify_api_key (some k) cfg = .forbidden := by
      show (if k = cfg then AuthResult.ok k else AuthResult.forbidden) = .forbidden
      rw [if_neg hk]
    refine ⟨?_, ?_, ?_⟩
    · unfold preview_digest; rw [hv]
    · unfold get_digest_data; rw [hv]
    · unfold render_digest; rw [hv]
  · intro key hkey
    cases key with
    | none => exact ⟨rfl, rfl, rfl⟩
    | some k =>
      have hk : ¬ k = cfg := fun e => hkey (by rw [e])
      have hv : verify_api_key (some k) cfg = .forbidden := by
        show (if k = cfg then AuthResult.ok k else AuthResult.forbidden) = .forbidden
        rw [if_neg hk]
      refine ⟨?_, ?_, ?_⟩
      · unfold preview_digest; rw [hv]
      · unfold get_digest_data; rw [hv]
      · unfold render_digest; rw [hv]

/-- Witness for C9 at a concrete configuration and key. -/
theorem c9_auth_gating_witness :
    preview_digest (some "wrong") "secret" [] 0 ⟨0, 1, 1, 2024⟩ = .error 403 :=
  ((c9_auth_gating "secret" [] [] 0 0 "u" "u" "t" "t" ⟨0, 1, 1, 2024⟩ ⟨0, 1, 1, 2024⟩).2.1
    "wrong" (by decide)).1

/-- C10 (implicit): `generate_digest_html` embeds the `usecase` argument
verbatim — not HTML-escaped — in the footer line
`Powered by KI-gestützte Kuration | {usecase}`, for every usecase string,
including ones containing `<`, `>` or `&`. -/
theorem c10_usecase_verbatim (articles : List Article) (tc : Int) (uc : String) (now : Now) :
    containsStr (generate_digest_html articles tc uc now)
      ("Powered by KI-gestützte Kuration | " ++ uc) := by
  show 0 < countPat ("Powered by KI-gestützte Kuration | " ++ uc).data
      (generate_digest_html articles tc uc now).data
  rw [gdh_data]
  have hsplit : footerPre.data
      = "\n  <div class=\"footer\">\n    <p>Dieser Digest wurde automatisch von deinem News AI Agent generiert.</p>\n    <p style=\"font-size: 0.8em;\">".data
        ++ "Powered by KI-gestützte Kuration | ".data := by decide
  rw [hsplit, String.data_append]
  apply countPat_pos_append_right
  apply countPat_pos_append_right
  apply countPat_pos_append_right
  apply countPat_pos_append_right
  apply countPat_pos_append_right
  apply countPat_pos_append_right
  apply countPat_pos_append_right
  apply countPat_pos_append_right
  apply countPat_pos_append_right
  apply countPat_pos_append_right
  apply countPat_pos_append_right
  apply countPat_pos_append_right
  apply countPat_pos_append_right
  apply countPat_pos_append_right
  rw [List.append_assoc, ← List.append_assoc "Powered by KI-gestützte Kuration | ".data]
  apply countPat_pos_append_right
  exact countPat_pos_head (by decide)

/-- C3: with an empty article sequence the rendered document contains the two
fixed German placeholder sentences and no article-card markup: no article
`div`, no stats box, and no per-article link (the `usecase` footer insertion
is assumed `<`-free, as any markup-free label is). -/
theorem c3_empty_state (tc : Int) (uc : String) (now : Now)
    (huc : ltFreeB uc.data = true) :
    containsStr (generate_digest_html [] tc uc now) "Keine Artikel zum Anzeigen."
    ∧ containsStr (generate_digest_html [] tc uc now)
        "Es gibt aktuell keine ungesendeten Artikel mit Zusammenfassungen."
    ∧ countPat "<div class=\"article".data (generate_digest_html [] tc uc now).data = 0
    ∧ countPat "<div class=\"stats".data (generate_digest_html [] tc uc now).data = 0
    ∧ countPat "<a href=".data (generate_digest_html [] tc uc now).data = 0 := by
  refine ⟨?_, ?_, ?_, ?_, ?_⟩
  · show 0 < countPat "Keine Artikel zum Anzeigen.".data
        (generate_digest_html [] tc uc now).data
    rw [gdh_data]
    apply countPat_pos_append_right
    apply countPat_pos_append_right
    apply countPat_pos_append_right
    apply countPat_pos_append_right
    apply countPat_pos_append_right
    apply countPat_pos_append_right
    apply countPat_pos_append_right
    apply countPat_pos_append_right
    apply countPat_pos_append_right
    apply countPat_pos_append_right
    apply countPat_pos_append_right
    apply countPat_pos_append_right
    apply countPat_pos_append_right
    apply countPat_pos_append_left
    show 0 < countPat "Keine Artikel zum Anzeigen.".data (bodyHtml [] tc).data
    have hb : bodyHtml [] tc = noArticlesHtml := rfl
    rw [hb]
    decide
  · show 0 < countPat "Es gibt aktuell keine ungesendeten Artikel mit Zusammenfassungen.".data
        (generate_digest_html [] tc uc now).data
    rw [gdh_data]
    apply countPat_pos_append_right
    apply countPat_pos_append_right
    apply countPat_pos_append_right
    apply countPat_pos_append_right
    apply countPat_pos_append_right
    apply countPat_pos_append_right
    apply countPat_pos_append_right
    apply countPat_pos_append_right
    apply countPat_pos_append_right
    apply countPat_pos_append_right
    apply countPat_pos_append_right
    apply countPat_pos_append_right
    apply countPat_pos_append_right
    apply countPat_pos_append_left
    show 0 < countPat "Es gibt aktuell keine ungesendeten Artikel mit Zusammenfassungen.".data
        (bodyHtml [] tc).data
    have hb : bodyHtml [] tc = noArticlesHtml := rfl
    rw [hb]
    decide
  · have e : "<div class=\"article".data = '<' :: "div class=\"article".data := rfl
    rw [e]
    have hbody : scanOkB ('<' :: "div class=\"article".data) (bodyHtml [] tc).data = true := by
      have hb : bodyHtml [] tc = noArticlesHtml := rfl
      rw [hb]
      decide
    exact scanOkB_count (scanOkB_gdh [] tc uc now (by decide) (by decide) (by decide)
      (by decide) (by decide) (by decide) (by decide) hbody (scanOkB_of_ltFree huc))
  · have e : "<div class=\"stats".data = '<' :: "div class=\"stats".data := rfl
    rw [e]
    have hbody : scanOkB ('<' :: "div class=\"stats".data) (bodyHtml [] tc).data = true := by
      have hb : bodyHtml [] tc = noArticlesHtml := rfl
      rw [hb]
      decide
    exact scanOkB_count (scanOkB_gdh [] tc uc now (by decide) (by decide) (by decide)
      (by decide) (by decide) (by decide) (by decide) hbody (scanOkB_of_ltFree huc))
  · have e : "<a href=".data = '<' :: "a href=".data := rfl
    rw [e]
    have hbody : scanOkB ('<' :: "a href=".data) (bodyHtml [] tc).data = true := by
      have hb : bodyHtml [] tc = noArticlesHtml := rfl
      rw [hb]
      decide
    exact scanOkB_count (scanOkB_gdh [] tc uc now (by decide) (by decide) (by decide)
      (by decide) (by decide) (by decide) (by decide) hbody (scanOkB_of_ltFree huc))

/-- Witness for C3 at a concrete empty input. -/
theorem c3_empty_state_witness :
    containsStr (generate_digest_html [] 0 "daily_newsletter" ⟨0, 1, 1, 2024⟩)
      "Keine Artikel zum Anzeigen."
    ∧ countPat "<a href=".data
        (generate_digest_html [] 0 "daily_newsletter" ⟨0, 1, 1, 2024⟩).data = 0 :=
  ⟨(c3_empty_state 0 "daily_newsletter" ⟨0, 1, 1, 2024⟩ (by decide)).1,
   (c3_empty_state 0 "daily_newsletter" ⟨0, 1, 1, 2024⟩ (by decide)).2.2.2.2⟩

/-- C1: an article record with only `id` and `url` set renders without
failure — its card appears in the returned document — and the card shows
exactly the four German fallback strings: `Kein Titel` as the `<h2>` title,
the meta line `Datum unbekannt | Unbekannte Quelle` for date and source, and
`Keine Zusammenfassung verfügbar` as the summary. -/
theorem c1_fallback_totality (idv urlv : String) (articles : List Article) (tc : Int)
    (uc : String) (now : Now) (hmem : onlyIdUrlArticle idv urlv ∈ articles) :
    displayTitle (onlyIdUrlArticle idv urlv) = "Kein Titel"
    ∧ displaySource (onlyIdUrlArticle idv urlv) = "Unbekannte Quelle"
    ∧ displaySummary (onlyIdUrlArticle idv urlv) = "Keine Zusammenfassung verfügbar"
    ∧ formatPublished (onlyIdUrlArticle idv urlv).published_at = "Datum unbekannt"
    ∧ containsStr (articleCard (onlyIdUrlArticle idv urlv))
        "Datum unbekannt | Unbekannte Quelle"
    ∧ containsStr (articleCard (onlyIdUrlArticle idv urlv))
        "Keine Zusammenfassung verfügbar"
    ∧ containsStr (generate_digest_html articles tc uc now)
        (articleCard (onlyIdUrlArticle idv urlv)) := by
  refine ⟨rfl, rfl, rfl, rfl, ?_, ?_, ?_⟩
  · show 0 < countPat "Datum unbekannt | Unbekannte Quelle".data
        (articleCard (onlyIdUrlArticle idv urlv)).data
    rw [articleCard_data]
    have hd : formatPublished (onlyIdUrlArticle idv urlv).published_at
        = "Datum unbekannt" := rfl
    have hs : displaySource (onlyIdUrlArticle idv urlv) = "Unbekannte Quelle" := rfl
    rw [hd, hs]
    apply countPat_pos_append_right
    apply countPat_pos_append_right
    apply countPat_pos_append_right
    apply countPat_pos_append_right
    apply countPat_pos_append_right
    apply countPat_pos_append_right
    apply countPat_pos_append_right
    rw [← List.append_assoc, ← List.append_assoc]
    have hneedle : ("Datum unbekannt".data ++ " | ".data) ++ "Unbekannte Quelle".data
        = "Datum unbekannt | Unbekannte Quelle".data := by decide
    rw [hneedle]
    exact countPat_pos_head (ne_nil_append_of_right (ne_nil_append_of_left (by decide)))
  · show 0 < countPat "Keine Zusammenfassung verfügbar".data
        (articleCard (onlyIdUrlArticle idv urlv)).data
    rw [articleCard_data]
    have hsum : displaySummary (onlyIdUrlArticle idv urlv)
        = "Keine Zusammenfassung verfügbar" := rfl
    rw [hsum]
    apply countPat_pos_append_right
    apply countPat_pos_append_right
    apply countPat_pos_append_right
    apply countPat_pos_append_right
    apply countPat_pos_append_right
    apply countPat_pos_append_right
    apply countPat_pos_append_right
    apply countPat_pos_append_right
    apply countPat_pos_append_right
    apply countPat_pos_append_right
    apply countPat_pos_append_right
    apply countPat_pos_append_right
    exact countPat_pos_head (ne_nil_append_of_left (by decide))
  · show 0 < countPat (articleCard (onlyIdUrlArticle idv urlv)).data
        (generate_digest_html articles tc uc now).data
    rw [gdh_data]
    apply countPat_pos_append_right
    apply countPat_pos_append_right
    apply countPat_pos_append_right
    apply countPat_pos_append_right
    apply countPat_pos_append_right
    apply countPat_pos_append_right
    apply countPat_pos_append_right
    apply countPat_pos_append_right
    apply countPat_pos_append_right
    apply countPat_pos_append_right
    apply countPat_pos_append_right
    apply countPat_pos_append_right
    apply countPat_pos_append_right
    have hlen : ¬ articles.length = 0 := by
      intro h0
      rw [List.length_eq_zero] at h0
      subst h0
      exact absurd hmem (List.not_mem_nil _)
    have hb : (bodyHtml articles tc).data
        = (statsHtml articles.length tc).data ++ (concatS (articles.map articleCard)).data := by
      unfold bodyHtml
      rw [if_neg hlen, String.data_append]
    rw [hb, List.append_assoc]
    apply countPat_pos_append_right
    apply countPat_pos_append_left
    refine countPat_pos_concatS (List.mem_map_of_mem articleCard hmem) ?_
    exact countPat_pos_self (articleCard_data_ne_nil _)

/-- Witness for C1 at a concrete batch. -/
theorem c1_fallback_totality_witness :
    containsStr (generate_digest_html [onlyIdUrlArticle "i1" "https://x"] 0 "daily_newsletter"
        ⟨0, 1, 1, 2024⟩) (articleCard (onlyIdUrlArticle "i1" "https://x"))
    ∧ displayTitle (onlyIdUrlArticle "i1" "https://x") = "Kein Titel" := by
  have h := c1_fallback_totality "i1" "https://x" [onlyIdUrlArticle "i1" "https://x"] 0
    "daily_newsletter" ⟨0, 1, 1, 2024⟩ (by simp)
  exact ⟨h.2.2.2.2.2.2, h.1⟩

/-- C2: for an article whose title is a non-empty string `t` (for instance one
containing `<script>`), the rendered document contains the HTML-escaped form
of `t`; that escaped form contains no raw `<`, `>` or `"` character; and —
provided the only deliberately raw insertions (the per-article published-date
strings and the `usecase` footer label) contain no `<` — the document contains
no `<script` substring at all.  The same escaping path (`html.escape`) is the
one applied to source, summary, url and category. -/
theorem c2_escaping (articles : List Article) (tc : Int) (uc : String) (now : Now)
    (a : Article) (t : String) (hmem : a ∈ articles) (ht : a.title = some t) (htne : t ≠ "")
    (hdates : articles.all (fun b => ltFreeB (formatPublished b.published_at).data) = true)
    (huc : ltFreeB uc.data = true) :
    containsStr (generate_digest_html articles tc uc now) (htmlEscape t)
    ∧ cleanB (htmlEscape t).data = true
    ∧ countPat "<script".data (generate_digest_html articles tc uc now).data = 0 := by
  have hdt : displayTitle a = htmlEscape t := by
    unfold displayTitle
    rw [ht]
    show htmlEscape (if t = "" then "Kein Titel" else t) = htmlEscape t
    rw [if_neg htne]
  refine ⟨?_, cleanB_escapeL _, ?_⟩
  · show 0 < countPat (htmlEscape t).data (generate_digest_html articles tc uc now).data
    rw [gdh_data]
    apply countPat_pos_append_right
    apply countPat_pos_append_right
    apply countPat_pos_append_right
    apply countPat_pos_append_right
    apply countPat_pos_append_right
    apply countPat_pos_append_right
    apply countPat_pos_append_right
    apply countPat_pos_append_right
    apply countPat_pos_append_right
    apply countPat_pos_append_right
    apply countPat_pos_append_right
    apply countPat_pos_append_right
    apply countPat_pos_append_right
    have hlen : ¬ articles.length = 0 := by
      intro h0
      rw [List.length_eq_zero] at h0
      subst h0
      exact absurd hmem (List.not_mem_nil _)
    have hb : (bodyHtml articles tc).data
        = (statsHtml articles.length tc).data ++ (concatS (articles.map articleCard)).data := by
      unfold bodyHtml
      rw [if_neg hlen, String.data_append]
    rw [hb, List.append_assoc]
    apply countPat_pos_append_right
    apply countPat_pos_append_left
    refine countPat_pos_concatS (List.mem_map_of_mem articleCard hmem) ?_
    rw [articleCard_data, hdt]
    apply countPat_pos_append_right
    apply countPat_pos_append_right
    apply countPat_pos_append_right
    apply countPat_pos_append_right
    exact countPat_pos_head (ne_nil_append_of_right (ne_nil_append_of_left (by decide)))
  · have e : "<script".data = '<' :: "script".data := rfl
    rw [e]
    refine scanOkB_count (scanOkB_gdh articles tc uc now (by decide) (by decide) (by decide)
      (by decide) (by decide) (by decide) (by decide) ?_ (scanOkB_of_ltFree huc))
    refine scanOkB_body articles tc (by decide) (by decide) (by decide) (by decide)
      (by decide) ?_
    intro b hb
    refine scanOkB_card b (by decide) (by decide) (by decide) (by decide) (by decide)
      (by decide) (by decide) (by decide) (by decide) (by decide) (by decide) (by decide)
      (by decide) ?_
    exact List.all_eq_true.mp hdates b hb

/-- Witness for C2 at a concrete batch with a `<script>` title. -/
theorem c2_escaping_witness :
    containsStr (generate_digest_html
        [{ title := some "<script>alert(1)</script>", url := some "u" }] 0
        "daily_newsletter" ⟨0, 1, 1, 2024⟩)
      (htmlEscape "<script>alert(1)</script>")
    ∧ countPat "<script".data (generate_digest_html
        [{ title := some "<script>alert(1)</script>", url := some "u" }] 0
        "daily_newsletter" ⟨0, 1, 1, 2024⟩).data = 0 := by
  have h := c2_escaping [{ title := some "<script>alert(1)</script>", url := some "u" }] 0
    "daily_newsletter" ⟨0, 1, 1, 2024⟩
    { title := some "<script>alert(1)</script>", url := some "u" }
    "<script>alert(1)</script>" (by simp) rfl (by decide) (by decide) (by decide)
  exact ⟨h.1, h.2.2⟩

/-- The published-date fallback chain exactly as claim C7 words it: a value
with calendar-formatting capability formats as `DD.MM.YYYY`; a string value is
parsed as ISO-8601 (trailing `Z` tolerated) and reformatted, the first 10
characters shown when parsing fails; any other non-null value is stringified
and truncated to 10 characters; an exception, or an absent value, yields
`"Datum unbekannt"`.  (A second definition following the claim's words, to be
compared with the source's `formatPublished`.) -/
def claimDateChain : PubDate → String
  | .absent => "Datum unbekannt"
  | .exnVal => "Datum unbekannt"
  | .dt d m y => fmtDMY d m y
  | .str s =>
    (match fromisoformat (replaceZ s.data) with
     | some (y, m, d) => fmtDMY d m y
     | none => take10 s)
  | .other s => take10 s

/-- C7 counterexample: on the empty-string `published_at` the code does not
follow the claim's chain.  The code's truthiness guard
(`if article.get("published_at"):`) treats `""` as absent and shows
`"Datum unbekannt"`, while the claim's chain ISO-parses `""`, fails, and
shows its first 10 characters — the empty string. -/
theorem c7_date_chain_counterexample :
    formatPublished (.str "") ≠ claimDateChain (.str "")
    ∧ formatPublished (.str "") = "Datum unbekannt"
    ∧ claimDateChain (.str "") = "" := by
  exact ⟨by decide, rfl, rfl⟩

/-- C7 (amended): the fallback chain with the code's truthiness guard made
explicit — a falsy value (absent/None, or the empty string) yields
`"Datum unbekannt"`; a datetime formats as `DD.MM.YYYY`; a non-empty string is
ISO-parsed (trailing `Z` tolerated via `replace('Z', '+00:00')`) and
reformatted as `DD.MM.YYYY`, falling back to its first 10 characters when
parsing fails; any other truthy value is stringified and truncated to 10
characters; a value whose formatting raises falls back — and the chain's
result never aborts the render: it appears in the returned document. -/
theorem c7_date_chain_amended (articles : List Article) (tc : Int) (uc : String) (now : Now)
    (a : Article) (hmem : a ∈ articles) :
    containsStr (generate_digest_html articles tc uc now) (formatPublished a.published_at)
    ∧ (a.published_at = .absent → formatPublished a.published_at = "Datum unbekannt")
    ∧ (a.published_at = .exnVal → formatPublished a.published_at = "Datum unbekannt")
    ∧ (∀ d m y, a.published_at = .dt d m y → formatPublished a.published_at = fmtDMY d m y)
    ∧ (∀ s, a.published_at = .str s → s ≠ ""
        → formatPublished a.published_at = claimDateChain (.str s))
    ∧ (∀ s, a.published_at = .str s → s = ""
        → formatPublished a.published_at = "Datum unbekannt")
    ∧ (∀ s, a.published_at = .other s → formatPublished a.published_at = take10 s) := by
  refine ⟨?_, ?_, ?_, ?_, ?_, ?_, ?_⟩
  · show 0 < countPat (formatPublished a.published_at).data
        (generate_digest_html articles tc uc now).data
    rw [gdh_data]
    apply countPat_pos_append_right
    apply countPat_pos_append_right
    apply countPat_pos_append_right
    apply countPat_pos_append_right
    apply countPat_pos_append_right
    apply countPat_pos_append_right
    apply countPat_pos_append_right
    apply countPat_pos_append_right
    apply countPat_pos_append_right
    apply countPat_pos_append_right
    apply countPat_pos_append_right
    apply countPat_pos_append_right
    apply countPat_pos_append_right
    have hlen : ¬ articles.length = 0 := by
      intro h0
      rw [List.length_eq_zero] at h0
      subst h0
      exact absurd hmem (List.not_mem_nil _)
    have hb : (bodyHtml articles tc).data
        = (statsHtml articles.length tc).data ++ (concatS (articles.map articleCard)).data := by
      unfold bodyHtml
      rw [if_neg hlen, String.data_append]
    rw [hb, List.append_assoc]
    apply countPat_pos_append_right
    apply countPat_pos_append_left
    refine countPat_pos_concatS (List.mem_map_of_mem articleCard hmem) ?_
    rw [articleCard_data]
    apply countPat_pos_append_right
    apply countPat_pos_append_right
    apply countPat_pos_append_right
    apply countPat_pos_append_right
    apply countPat_pos_append_right
    apply countPat_pos_append_right
    apply countPat_pos_append_right
    exact countPat_pos_head (ne_nil_append_of_left (by decide))
  · intro h; rw [h]; rfl
  · intro h; rw [h]; rfl
  · intro d m y h; rw [h]; rfl
  · intro s h hs
    rw [h]
    show (if s = "" then "Datum unbekannt"
        else match fromisoformat (replaceZ s.data) with
          | some (y, m, d) => fmtDMY d m y
          | none => take10 s) = claimDateChain (.str s)
    rw [if_neg hs]
    rfl
  · intro s h hs
    rw [h, hs]
    rfl
  · intro s h; rw [h]; rfl

/-- Witness for C7's amended chain on a real ISO timestamp with `Z` offset. -/
theorem c7_date_chain_amended_witness :
    containsStr (generate_digest_html
        [{ url := some "u", published_at := .str "2024-03-05T10:00:00Z" }] 0
        "daily_newsletter" ⟨0, 1, 1, 2024⟩)
      (formatPublished (.str "2024-03-05T10:00:00Z"))
    ∧ formatPublished (.str "2024-03-05T10:00:00Z") = "05.03.2024" := by
  have h := c7_date_chain_amended
    [{ url := some "u", published_at := .str "2024-03-05T10:00:00Z" }] 0
    "daily_newsletter" ⟨0, 1, 1, 2024⟩
    { url := some "u", published_at := .str "2024-03-05T10:00:00Z" } (by simp)
  exact ⟨h.1, by decide⟩

/-! ## Tag-chip extraction (claim C8) -/

theorem extract_grab_pass {qs t rest : List Char} (ht : ltFreeB t = true)
    (hrest : rest.head? = some '<') :
    extractAfter ('<' :: qs) (('<' :: qs) ++ (t ++ rest))
      = t :: extractAfter ('<' :: qs) rest := by
  cases rest with
  | nil => simp at hrest
  | cons c rest' =>
    have hc : c = '<' := by simpa using hrest
    subst hc
    rw [extractAfter_grab ht, extractAfter_pass _ (scanOkB_of_ltFree ht)]

theorem extract_chips (tags : List String) (xs : List Char) :
    extractAfter ('<' :: "span class=\"keyword\">".data)
        ((concatS (tags.map tagChip)).data ++ xs)
      = tags.map (fun t => escapeL t.data)
        ++ extractAfter ('<' :: "span class=\"keyword\">".data) xs := by
  induction tags with
  | nil => simp [concatS]
  | cons t rest ih =>
    rw [List.map_cons, data_concatS_cons, List.append_assoc]
    have hc : (tagChip t).data
        = ('<' :: "span class=\"keyword\">".data) ++ (escapeL t.data ++ "</span>".data) := by
      unfold tagChip
      simp [String.data_append, List.append_assoc, htmlEscape]
    rw [hc, List.append_assoc, List.append_assoc]
    have hhead : ("</span>".data ++ ((concatS (rest.map tagChip)).data ++ xs)).head?
        = some '<' := rfl
    rw [extract_grab_pass (ltFreeB_escapeL t.data) hhead]
    rw [extractAfter_pass _
      (by decide : scanOkB ('<' :: "span class=\"keyword\">".data) "</span>".data = true)]
    rw [ih]
    simp

/-- C8: the rendered tag-chip list of a card is exactly `topics ++ keywords`
(each field defaulting to the empty sequence) truncated to the first 5
entries, each HTML-escaped, topics before keywords, in original order; its
length is `min 5` of the combined length (so 8 combined entries give exactly
5 chips); and when the combined list is empty the tag block is omitted
entirely.  (The published date is assumed `<`-free so that a raw date cannot
forge chip markup.) -/
theorem c8_tags (a : Article)
    (hdate : ltFreeB (formatPublished a.published_at).data = true) :
    extractAfter "<span class=\"keyword\">".data (articleCard a).data
      = ((a.topics.getD [] ++ a.keywords.getD []).take 5).map (fun t => escapeL t.data)
    ∧ (extractAfter "<span class=\"keyword\">".data (articleCard a).data).length
      = min 5 (a.topics.getD [] ++ a.keywords.getD []).length
    ∧ (a.topics.getD [] ++ a.keywords.getD [] = []
        → countPat "<div class=\"keywords\"".data (articleCard a).data = 0) := by
  have e : "<span class=\"keyword\">".data = '<' :: "span class=\"keyword\">".data := rfl
  have hmain : extractAfter "<span class=\"keyword\">".data (articleCard a).data
      = ((a.topics.getD [] ++ a.keywords.getD []).take 5).map (fun t => escapeL t.data) := by
    rw [e, articleCard_data]
    rw [extractAfter_pass _ (by decide)]
    rw [extractAfter_pass _ (scanOkB_priorityClass a)]
    rw [extractAfter_pass _ (by decide)]
    rw [extractAfter_pass _ (by decide)]
    rw [extractAfter_pass _ (scanOkB_of_ltFree (ltFreeB_displayTitle a))]
    rw [extractAfter_pass _ (scanOkB_badge _ (by decide) (by decide))]
    rw [extractAfter_pass _ (by decide)]
    rw [extractAfter_pass _ (scanOkB_of_ltFree hdate)]
    rw [extractAfter_pass _ (scanOkB_of_ltFree (by decide))]
    rw [extractAfter_pass _ (scanOkB_of_ltFree (ltFreeB_displaySource a))]
    rw [extractAfter_pass _ (scanOkB_categoryStr a)]
    rw [extractAfter_pass _ (by decide)]
    rw [extractAfter_pass _ (scanOkB_of_ltFree (ltFreeB_displaySummary a))]
    rw [extractAfter_pass _ (by decide)]
    by_cases hkw : allTags a = []
    · have hk : keywordsHtml a = "" := by unfold keywordsHtml; rw [if_pos hkw]
      rw [hk]
      rw [show ("" : String).data ++ (cardF.data ++ ((displayUrl a).data ++ cardG.data))
          = cardF.data ++ ((displayUrl a).data ++ cardG.data) from rfl]
      rw [extractAfter_pass _ (by decide)]
      rw [extractAfter_pass _ (scanOkB_of_ltFree (ltFreeB_displayUrl a))]
      rw [show cardG.data = cardG.data ++ [] from (List.append_nil _).symm]
      rw [extractAfter_pass _ (by decide)]
      rw [extractAfter_nil]
      unfold allTags at hkw
      rw [hkw]
      rfl
    · have hk : (keywordsHtml a).data
          = "<div class=\"keywords\">".data
            ++ ((concatS ((allTags a).map tagChip)).data ++ "</div>".data) := by
        unfold keywordsHtml
        rw [if_neg hkw]
        simp [String.data_append, List.append_assoc]
      rw [hk, List.append_assoc, List.append_assoc]
      rw [extractAfter_pass _ (by decide)]
      rw [extract_chips]
      rw [extractAfter_pass _ (by decide)]
      rw [extractAfter_pass _ (by decide)]
      rw [extractAfter_pass _ (scanOkB_of_ltFree (ltFreeB_displayUrl a))]
      rw [show cardG.data = cardG.data ++ [] from (List.append_nil _).symm]
      rw [extractAfter_pass _ (by decide)]
      rw [extractAfter_nil]
      unfold allTags
      simp
  refine ⟨hmain, ?_, ?_⟩
  · rw [hmain, List.length_map, List.length_take]
  · intro hcomb
    have hkw : allTags a = [] := by unfold allTags; rw [hcomb]; rfl
    have hk : keywordsHtml a = "" := by unfold keywordsHtml; rw [if_pos hkw]
    have e2 : "<div class=\"keywords\"".data = '<' :: "div class=\"keywords\"".data := rfl
    rw [e2]
    refine scanOkB_count ?_
    rw [articleCard_data, hk]
    exact scanOkB_append (by decide) (scanOkB_append (scanOkB_priorityClass a)
      (scanOkB_append (by decide) (scanOkB_append (by decide)
      (scanOkB_append (scanOkB_of_ltFree (ltFreeB_displayTitle a))
      (scanOkB_append (scanOkB_badge _ (by decide) (by decide))
      (scanOkB_append (by decide) (scanOkB_append (scanOkB_of_ltFree hdate)
      (scanOkB_append (scanOkB_of_ltFree (by decide))
      (scanOkB_append (scanOkB_of_ltFree (ltFreeB_displaySource a))
      (scanOkB_append (scanOkB_categoryStr a) (scanOkB_append (by decide)
      (scanOkB_append (scanOkB_of_ltFree (ltFreeB_displaySummary a))
      (scanOkB_append (by decide)
      (scanOkB_append (scanOkB_of_ltFree (by decide))
      (scanOkB_append (by decide)
      (scanOkB_append (scanOkB_of_ltFree (ltFreeB_displayUrl a)) (by decide)))))))))))))))))

/-- Witness for C8: 4 topics and 4 keywords give exactly 5 chips. -/
theorem c8_tags_witness :
    (extractAfter "<span class=\"keyword\">".data
      (articleCard { url := some "u", topics := some ["t1", "t2", "t3", "t4"], keywords := some ["k1", "k2", "k3", "k4"] }).data).length
      = 5 := by
  have h := c8_tags { url := some "u", topics := some ["t1", "t2", "t3", "t4"], keywords := some ["k1", "k2", "k3", "k4"] } (by decide)
  rw [h.2.1]
  decide

/-! ## Title extraction (claim C4) -/

theorem badge_head_lt (a : Article) (R : List Char) :
    ((get_priority_badge (displayPriority a)).data ++ (cardC.data ++ R)).head? = some '<' := by
  unfold get_priority_badge
  by_cases h1 : displayPriority a = "high"
  · rw [if_pos h1]; rfl
  rw [if_neg h1]
  by_cases h2 : displayPriority a = "medium"
  · rw [if_pos h2]; rfl
  · rw [if_neg h2]; rfl

theorem extract_title_card (a : Article) (xs : List Char)
    (hd : ltFreeB (formatPublished a.published_at).data = true) :
    extractAfter ('<' :: "h2>".data) ((articleCard a).data ++ xs)
      = escapeL (pyOr a.title "Kein Titel").data :: extractAfter ('<' :: "h2>".data) xs := by
  rw [articleCard_data]
  simp only [List.append_assoc]
  rw [extractAfter_pass _ (by decide)]
  rw [extractAfter_pass _ (scanOkB_priorityClass a)]
  rw [extractAfter_pass _ (by decide)]
  have htitle : (displayTitle a).data = escapeL (pyOr a.title "Kein Titel").data := rfl
  rw [htitle]
  rw [extract_grab_pass (ltFreeB_escapeL _) (badge_head_lt a _)]
  rw [extractAfter_pass _ (scanOkB_badge _ (by decide) (by decide))]
  rw [extractAfter_pass _ (by decide)]
  rw [extractAfter_pass _ (scanOkB_of_ltFree hd)]
  rw [extractAfter_pass _ (scanOkB_of_ltFree (by decide))]
  rw [extractAfter_pass _ (scanOkB_of_ltFree (ltFreeB_displaySource a))]
  rw [extractAfter_pass _ (scanOkB_categoryStr a)]
  rw [extractAfter_pass _ (by decide)]
  rw [extractAfter_pass _ (scanOkB_of_ltFree (ltFreeB_displaySummary a))]
  rw [extractAfter_pass _ (by decide)]
  rw [extractAfter_pass _
    (scanOkB_keywordsHtml a (by decide) (by decide) (by decide) (by decide))]
  rw [extractAfter_pass _ (by decide)]
  rw [extractAfter_pass _ (scanOkB_of_ltFree (ltFreeB_displayUrl a))]
  rw [extractAfter_pass _ (by decide)]

theorem extract_title_cards (articles : List Article) (xs : List Char)
    (hd : ∀ a ∈ articles, ltFreeB (formatPublished a.published_at).data = true) :
    extractAfter ('<' :: "h2>".data) ((concatS (articles.map articleCard)).data ++ xs)
      = articles.map (fun a => escapeL (pyOr a.title "Kein Titel").data)
        ++ extractAfter ('<' :: "h2>".data) xs := by
  induction articles with
  | nil => simp [concatS]
  | cons a rest ih =>
    rw [List.map_cons, data_concatS_cons, List.append_assoc]
    rw [extract_title_card a _ (hd a (List.mem_cons_self a rest))]
    rw [ih (fun b hb => hd b (List.mem_cons_of_mem a hb))]
    simp

/-- C4: for a non-empty batch, the sequence of titles shown in the `<h2>`
elements of the output equals the input sequence of titles — each HTML-escaped
and with absent/empty titles replaced by `Kein Titel` — in input order, with
no reordering, dropping or duplication.  (The raw insertions — published
dates and the usecase label — are assumed `<`-free so they cannot forge
`<h2>` markup.) -/
theorem c4_order_preservation (articles : List Article) (tc : Int) (uc : String) (now : Now)
    (hne : articles ≠ [])
    (hdates : articles.all (fun b => ltFreeB (formatPublished b.published_at).data) = true)
    (huc : ltFreeB uc.data = true) :
    extractAfter "<h2>".data (generate_digest_html articles tc uc now).data
      = articles.map (fun a => escapeL (pyOr a.title "Kein Titel").data) := by
  have e : "<h2>".data = '<' :: "h2>".data := rfl
  rw [e, gdh_data]
  rw [extractAfter_pass _ (by decide)]
  rw [extractAfter_pass _ (by decide)]
  rw [extractAfter_pass _ (by decide)]
  rw [extractAfter_pass _ (scanOkB_of_ltFree (by decide))]
  rw [extractAfter_pass _ (scanOkB_of_ltFree (by decide))]
  rw [extractAfter_pass _ (scanOkB_of_ltFree (by decide))]
  rw [extractAfter_pass _ (scanOkB_of_ltFree (by decide))]
  rw [extractAfter_pass _ (scanOkB_of_ltFree (by decide))]
  rw [extractAfter_pass _ (scanOkB_of_ltFree (by decide))]
  rw [extractAfter_pass _ (scanOkB_of_ltFree (by decide))]
  rw [extractAfter_pass _ (by decide)]
  rw [extractAfter_pass _ (scanOkB_of_ltFree (ltFreeB_headerDate now))]
  rw [extractAfter_pass _ (by decide)]
  have hlen : ¬ articles.length = 0 := fun h0 => hne (List.length_eq_zero.mp h0)
  have hb : (bodyHtml articles tc).data
      = (statsHtml articles.length tc).data ++ (concatS (articles.map articleCard)).data := by
    unfold bodyHtml
    rw [if_neg hlen, String.data_append]
  rw [hb, List.append_assoc]
  rw [extractAfter_pass _
    (scanOkB_statsHtml _ _ (by decide) (by decide) (by decide) (by decide))]
  rw [extract_title_cards articles _ (fun b hb2 => List.all_eq_true.mp hdates b hb2)]
  rw [extractAfter_pass _ (by decide)]
  rw [extractAfter_pass _ (scanOkB_of_ltFree huc)]
  rw [show footerPost.data = footerPost.data ++ [] from (List.append_nil _).symm]
  rw [extractAfter_pass _ (by decide)]
  rw [extractAfter_nil]
  simp

/-- Witness for C4 on a concrete two-article batch. -/
theorem c4_order_preservation_witness :
    extractAfter "<h2>".data (generate_digest_html [{ title := some "B", url := some "u" }, { title := some "A", url := some "v" }] 0 "daily_newsletter" ⟨0, 1, 1, 2024⟩).data
      = ["B".data, "A".data] := by
  have h := c4_order_preservation
    [{ title := some "B", url := some "u" }, { title := some "A", url := some "v" }] 0
    "daily_newsletter" ⟨0, 1, 1, 2024⟩ (List.cons_ne_nil _ _) (by decide) (by decide)
  rw [h]
  decide

/-! ## Shape and scan lemmas for the spec-modelled renderer -/

theorem renderCard_data (a : Article) :
    (renderCard a).data
      = cardA.data ++ ((priorityClass a).data ++ (cardB.data ++ ((imageBlock a).data
        ++ ("<h2>".data ++ ((displayTitle a).data
        ++ ((get_priority_badge (displayPriority a)).data
        ++ (cardC.data ++ ((formatPublished a.published_at).data ++ (" | ".data
        ++ ((displaySource a).data ++ ((categoryStr a).data ++ (cardD.data
        ++ ((displaySummary a).data ++ (cardE.data ++ ((keywordsHtml a).data
        ++ (cardF.data ++ ((displayUrl a).data ++ cardG.data))))))))))))))))) := by
  simp [renderCard, String.data_append, List.append_assoc]

theorem render_data (articles : List Article) (tc : Int) (uc tl : String) (now : Now) :
    (render articles tc uc tl now).data
      = headerA1.data ++ (headerA2.data ++ (headerA3.data ++ (logoPart1.data ++ (logoPart2.data
        ++ (logoPart3.data ++ (logoPart4.data ++ (logoPart5.data ++ (logoPart6.data
        ++ (logoPart7.data ++ (headerB.data ++ ((headerDate now).data
        ++ ("</h1>\n    <div class=\"subtitle\">".data
        ++ ((if tl = "" then defaultTagline else tl).data ++ ("</div>\n  </div>\n".data
        ++ ((renderBody articles tc).data ++ (footerPre.data ++ (uc.data
        ++ footerPost.data))))))))))))))))) := by
  simp [render, renderHeader, headerA, logo_base64, String.data_append, List.append_assoc]

theorem scanOkB_imageBlock {qs : List Char} (a : Article)
    (hobj : scanOkB ('<' :: qs) "\n    <div class=\"article-image\"><img src=\"".data = true)
    (htail : scanOkB ('<' :: qs)
      "\" style=\"width: 100%; height: 200px; object-fit: cover;\"></div>".data = true)
    (himg : ltFreeB (pyOr a.image_url "").data = true) :
    scanOkB ('<' :: qs) (imageBlock a).data = true := by
  unfold imageBlock
  by_cases h : pyOr a.image_url "" = ""
  · rw [if_pos h]; exact scanOkB_of_ltFree (by decide)
  · rw [if_neg h]
    show scanOkB ('<' :: qs) (("\n    <div class=\"article-image\"><img src=\""
        ++ pyOr a.image_url ""
        ++ "\" style=\"width: 100%; height: 200px; object-fit: cover;\"></div>").data) = true
    simp only [String.data_append]
    exact scanOkB_append (scanOkB_append hobj (scanOkB_of_ltFree himg)) htail

theorem scanOkB_renderCard {qs : List Char} (a : Article)
    (hA : scanOkB ('<' :: qs) cardA.data = true)
    (hh2 : scanOkB ('<' :: qs) "<h2>".data = true)
    (hC : scanOkB ('<' :: qs) cardC.data = true)
    (hD : scanOkB ('<' :: qs) cardD.data = true)
    (hE : scanOkB ('<' :: qs) cardE.data = true)
    (hF : scanOkB ('<' :: qs) cardF.data = true)
    (hG : scanOkB ('<' :: qs) cardG.data = true)
    (hbH : scanOkB ('<' :: qs) badgeHigh.data = true)
    (hbM : scanOkB ('<' :: qs) badgeMedium.data = true)
    (hkO : scanOkB ('<' :: qs) "<div class=\"keywords\">".data = true)
    (hcO : scanOkB ('<' :: qs) "<span class=\"keyword\">".data = true)
    (hcC : scanOkB ('<' :: qs) "</span>".data = true)
    (hkC : scanOkB ('<' :: qs) "</div>".data = true)
    (hib : scanOkB ('<' :: qs) (imageBlock a).data = true)
    (hdate : ltFreeB (formatPublished a.published_at).data = true) :
    scanOkB ('<' :: qs) (renderCard a).data = true := by
  rw [renderCard_data]
  exact scanOkB_append hA (scanOkB_append (scanOkB_priorityClass a)
    (scanOkB_append (scanOkB_of_ltFree (by decide)) (scanOkB_append hib
    (scanOkB_append hh2
    (scanOkB_append (scanOkB_of_ltFree (ltFreeB_displayTitle a))
    (scanOkB_append (scanOkB_badge _ hbH hbM)
    (scanOkB_append hC (scanOkB_append (scanOkB_of_ltFree hdate)
    (scanOkB_append (scanOkB_of_ltFree (by decide))
    (scanOkB_append (scanOkB_of_ltFree (ltFreeB_displaySource a))
    (scanOkB_append (scanOkB_categoryStr a) (scanOkB_append hD
    (scanOkB_append (scanOkB_of_ltFree (ltFreeB_displaySummary a)) (scanOkB_append hE
    (scanOkB_append (scanOkB_keywordsHtml a hkO hcO hcC hkC) (scanOkB_append hF
    (scanOkB_append (scanOkB_of_ltFree (ltFreeB_displayUrl a)) hG)))))))))))))))))

theorem scanOkB_renderBody {qs : List Char} (articles : List Article) (tc : Int)
    (hNo : scanOkB ('<' :: qs) noArticlesHtml.data = true)
    (hsA : scanOkB ('<' :: qs) statsA.data = true)
    (hsB : scanOkB ('<' :: qs) statsB.data = true)
    (hsC : scanOkB ('<' :: qs) statsC.data = true)
    (hsD : scanOkB ('<' :: qs) statsD.data = true)
    (hcards : ∀ a ∈ articles, scanOkB ('<' :: qs) (renderCard a).data = true) :
    scanOkB ('<' :: qs) (renderBody articles tc).data = true := by
  unfold renderBody
  by_cases hlen : articles.length = 0
  · rw [if_pos hlen]; exact hNo
  · rw [if_neg hlen]
    show scanOkB ('<' :: qs)
        ((statsHtml articles.length tc ++ concatS (articles.map renderCard)).data) = true
    rw [String.data_append]
    refine scanOkB_append (scanOkB_statsHtml _ _ hsA hsB hsC hsD) (scanOkB_concatS ?_)
    intro s hs
    simp only [List.mem_map] at hs
    obtain ⟨a, ha, rfl⟩ := hs
    exact hcards a ha

/-- C6 (spec-modelled): the render endpoint's renderer has signature
`render(articles, total_candidates, usecase, tagline)` (the `render`
definition above), and the header subtitle line shown in the output is
exactly the `tagline` argument when it is non-empty and the static default
title when it is empty.  (The dynamic raw insertions — dates, image URLs,
usecase, tagline — are assumed `<`-free so they cannot forge subtitle
markup.) -/
theorem c6_render_tagline (articles : List Article) (tc : Int) (uc tl : String) (now : Now)
    (hdates : articles.all (fun b => ltFreeB (formatPublished b.published_at).data) = true)
    (himgs : articles.all (fun b => ltFreeB (pyOr b.image_url "").data) = true)
    (huc : ltFreeB uc.data = true) (htl : ltFreeB tl.data = true) :
    extractAfter "<div class=\"subtitle\">".data (render articles tc uc tl now).data
      = [(if tl = "" then defaultTagline else tl).data] := by
  have hch : ltFreeB (if tl = "" then defaultTagline else tl).data = true := by
    by_cases h : tl = ""
    · rw [if_pos h]; decide
    · rw [if_neg h]; exact htl
  have hcards : ∀ b ∈ articles,
      scanOkB ('<' :: "div class=\"subtitle\">".data) (renderCard b).data = true := by
    intro b hb
    refine scanOkB_renderCard b (by decide) (by decide) (by decide) (by decide) (by decide)
      (by decide) (by decide) (by decide) (by decide) (by decide) (by decide) (by decide)
      (by decide) ?_ ?_
    · exact scanOkB_imageBlock b (by decide) (by decide) (List.all_eq_true.mp himgs b hb)
    · exact List.all_eq_true.mp hdates b hb
  have e : "<div class=\"subtitle\">".data = '<' :: "div class=\"subtitle\">".data := rfl
  rw [e, render_data]
  rw [extractAfter_pass _ (by decide)]
  rw [extractAfter_pass _ (by decide)]
  rw [extractAfter_pass _ (by decide)]
  rw [extractAfter_pass _ (scanOkB_of_ltFree (by decide))]
  rw [extractAfter_pass _ (scanOkB_of_ltFree (by decide))]
  rw [extractAfter_pass _ (scanOkB_of_ltFree (by decide))]
  rw [extractAfter_pass _ (scanOkB_of_ltFree (by decide))]
  rw [extractAfter_pass _ (scanOkB_of_ltFree (by decide))]
  rw [extractAfter_pass _ (scanOkB_of_ltFree (by decide))]
  rw [extractAfter_pass _ (scanOkB_of_ltFree (by decide))]
  rw [extractAfter_pass _ (by decide)]
  rw [extractAfter_pass _ (scanOkB_of_ltFree (ltFreeB_headerDate now))]
  rw [show "</h1>\n    <div class=\"subtitle\">".data
      = "</h1>\n    ".data ++ ('<' :: "div class=\"subtitle\">".data) from by decide]
  rw [List.append_assoc]
  rw [extractAfter_pass _ (by decide)]
  have hhead : ("</div>\n  </div>\n".data ++ ((renderBody articles tc).data
      ++ (footerPre.data ++ (uc.data ++ footerPost.data)))).head? = some '<' := rfl
  rw [extract_grab_pass hch hhead]
  rw [extractAfter_pass _ (by decide)]
  rw [extractAfter_pass _ (scanOkB_renderBody articles tc (by decide) (by decide) (by decide)
    (by decide) (by decide) hcards)]
  rw [extractAfter_pass _ (by decide)]
  rw [extractAfter_pass _ (scanOkB_of_ltFree huc)]
  rw [show footerPost.data = footerPost.data ++ [] from (List.append_nil _).symm]
  rw [extractAfter_pass _ (by decide)]
  rw [extractAfter_nil]

/-- Witness for C6: a non-empty tagline is shown as the subtitle. -/
theorem c6_render_tagline_witness :
    extractAfter "<div class=\"subtitle\">".data
      (render [] 0 "daily_newsletter" "Test Tagline" ⟨0, 1, 1, 2024⟩).data
      = ["Test Tagline".data] := by
  have h := c6_render_tagline [] 0 "daily_newsletter" "Test Tagline" ⟨0, 1, 1, 2024⟩
    (by decide) (by decide) (by decide) (by decide)
  rw [h]
  decide

/-- Article of the render contract test that carries an image URL (claim C5's
witness input). -/
def c5ImgArticle : Article :=
  { id := some "00000000-0000-0000-0000-000000000001",
    url := some "https://example.com/article",
    title := some "Test Article With Image",
    source := some "Test Source",
    summary := some "A test summary.",
    priority := some "high",
    image_url := some "https://example.com/image.jpg" }

/-- Article of the render contract test without an image URL (claim C5's
witness input). -/
def c5NoImgArticle : Article :=
  { id := some "00000000-0000-0000-0000-000000000002",
    url := some "https://example.com/article-no-image",
    title := some "Test Article Without Image",
    source := some "Test Source",
    summary := some "A test summary without image.",
    priority := some "medium" }

/-- C5 (spec-modelled): (a) an article whose `image_url` is a non-empty
string `u` yields a card — and hence a document — containing the image
reference `<img src="u`; (b) when every article's `image_url` resolves to
the empty string, the only `<img` occurrence in the whole document is the
fixed header logo, i.e. the count of `<img` is exactly 1.  (For (b) the
dynamic raw insertions — dates, usecase, tagline — are assumed `<`-free.) -/
theorem c5_image_block (articles : List Article) (tc : Int) (uc tl : String) (now : Now) :
    (∀ a ∈ articles, ∀ u : String, a.image_url = some u → ¬ u = "" →
        containsStr (renderCard a) ("<img src=\"" ++ u)
          ∧ containsStr (render articles tc uc tl now) ("<img src=\"" ++ u))
    ∧ ((articles.all fun b => pyOr b.image_url "" == "") = true →
       (articles.all fun b => ltFreeB (formatPublished b.published_at).data) = true →
       ltFreeB uc.data = true → ltFreeB tl.data = true →
       countPat "<img".data (render articles tc uc tl now).data = 1) := by
  constructor
  · intro a ha u hau hu
    have hpy : pyOr a.image_url "" = u := by
      rw [hau]
      show (if u = "" then "" else u) = u
      rw [if_neg hu]
    have hib : (imageBlock a).data
        = "\n    <div class=\"article-image\">".data
          ++ (("<img src=\"" ++ u).data
          ++ "\" style=\"width: 100%; height: 200px; object-fit: cover;\"></div>".data) := by
      unfold imageBlock
      rw [hpy, if_neg hu]
      rw [show ("\n    <div class=\"article-image\"><img src=\"" : String)
          = "\n    <div class=\"article-image\">" ++ "<img src=\"" from by decide]
      simp [String.data_append, List.append_assoc]
    have hcard : 0 < countPat ("<img src=\"" ++ u).data (renderCard a).data := by
      rw [renderCard_data]
      apply countPat_pos_append_right
      apply countPat_pos_append_right
      apply countPat_pos_append_right
      rw [hib, List.append_assoc]
      apply countPat_pos_append_right
      rw [List.append_assoc]
      exact countPat_pos_head (ne_nil_append_of_left (by decide))
    refine ⟨hcard, ?_⟩
    show 0 < countPat ("<img src=\"" ++ u).data (render articles tc uc tl now).data
    have hlen : ¬ articles.length = 0 := by
      intro h0
      rw [List.length_eq_zero] at h0
      subst h0
      exact List.not_mem_nil a ha
    have hrb : (renderBody articles tc).data
        = (statsHtml articles.length tc).data ++ (concatS (articles.map renderCard)).data := by
      unfold renderBody
      rw [if_neg hlen]
      exact String.data_append _ _
    rw [render_data]
    apply countPat_pos_append_right
    apply countPat_pos_append_right
    apply countPat_pos_append_right
    apply countPat_pos_append_right
    apply countPat_pos_append_right
    apply countPat_pos_append_right
    apply countPat_pos_append_right
    apply countPat_pos_append_right
    apply countPat_pos_append_right
    apply countPat_pos_append_right
    apply countPat_pos_append_right
    apply countPat_pos_append_right
    apply countPat_pos_append_right
    apply countPat_pos_append_right
    apply countPat_pos_append_right
    rw [hrb, List.append_assoc]
    apply countPat_pos_append_right
    apply countPat_pos_append_left
    exact countPat_pos_concatS (List.mem_map_of_mem renderCard ha) hcard
  · intro hempty hdates huc htl
    have hch : ltFreeB (if tl = "" then defaultTagline else tl).data = true := by
      by_cases h : tl = ""
      · rw [if_pos h]; decide
      · rw [if_neg h]; exact htl
    have hcards : ∀ b ∈ articles, scanOkB ('<' :: "img".data) (renderCard b).data = true := by
      intro b hb
      have hb0 : pyOr b.image_url "" = "" := eq_of_beq (List.all_eq_true.mp hempty b hb)
      have hib : scanOkB ('<' :: "img".data) (imageBlock b).data = true := by
        unfold imageBlock
        rw [if_pos hb0]
        decide
      exact scanOkB_renderCard b (by decide) (by decide) (by decide) (by decide) (by decide)
        (by decide) (by decide) (by decide) (by decide) (by decide) (by decide) (by decide)
        (by decide) hib (List.all_eq_true.mp hdates b hb)
    have e : "<img".data = '<' :: "img".data := rfl
    rw [e, render_data]
    rw [countPat_append_zero_left (by decide)]
    rw [countPat_append_zero_left (by decide)]
    rw [countPat_append (show tailRiskB ('<' :: "img".data) headerA3.data = false from by decide)]
    rw [show countPat ('<' :: "img".data) headerA3.data = 1 from by decide]
    rw [countPat_append_zero_left (scanOkB_of_ltFree (by decide))]
    rw [countPat_append_zero_left (scanOkB_of_ltFree (by decide))]
    rw [countPat_append_zero_left (scanOkB_of_ltFree (by decide))]
    rw [countPat_append_zero_left (scanOkB_of_ltFree (by decide))]
    rw [countPat_append_zero_left (scanOkB_of_ltFree (by decide))]
    rw [countPat_append_zero_left (scanOkB_of_ltFree (by decide))]
    rw [countPat_append_zero_left (scanOkB_of_ltFree (by decide))]
    rw [countPat_append_zero_left (by decide)]
    rw [countPat_append_zero_left (scanOkB_of_ltFree (ltFreeB_headerDate now))]
    rw [countPat_append_zero_left (by decide)]
    rw [countPat_append_zero_left (scanOkB_of_ltFree hch)]
    rw [countPat_append_zero_left (by decide)]
    rw [countPat_append_zero_left (scanOkB_renderBody articles tc (by decide) (by decide)
      (by decide) (by decide) (by decide) hcards)]
    rw [countPat_append_zero_left (by decide)]
    rw [countPat_append_zero_left (scanOkB_of_ltFree huc)]
    rw [show countPat ('<' :: "img".data) footerPost.data = 0 from by decide]

/-- Witness for C5: the two render contract-test payloads — with an image the
document references the exact URL, without one the logo is the only `<img`. -/
theorem c5_image_block_witness :
    (containsStr (render [c5ImgArticle] 1 "daily_newsletter" "Test Tagline" ⟨0, 1, 1, 2024⟩)
        ("<img src=\"" ++ "https://example.com/image.jpg"))
    ∧ countPat "<img".data
        (render [c5NoImgArticle] 1 "daily_newsletter" "" ⟨0, 1, 1, 2024⟩).data = 1 := by
  constructor
  · exact ((c5_image_block [c5ImgArticle] 1 "daily_newsletter" "Test Tagline"
      ⟨0, 1, 1, 2024⟩).1 c5ImgArticle (List.mem_singleton.mpr rfl)
      "https://example.com/image.jpg" rfl (by decide)).2
  · exact (c5_image_block [c5NoImgArticle] 1 "daily_newsletter" ""
      ⟨0, 1, 1, 2024⟩).2 (by decide) (by decide) (by decide) (by decide)
